import Mathlib

/-! Shallow embedding of the GL_Analysis core pipeline:
    the deviation scoring and tiering engine of src/deviation_engine.py and
    the statistical comparator of src/statisticsal_inferences.py.

    Modelling conventions:
    * Python floats are exact rationals extended with NaN and signed infinity
      (type `F`); binary floating-point rounding is idealised away, so decimal
      constants such as 0.6 denote the exact rational 3/5.
    * Python dicts are association lists kept in insertion order; dict lookup
      is association-list lookup.
    * pandas DataFrames are a column-name list plus a list of rows, each row an
      association list from column name to a dynamic cell value (`PyVal`).
    * Fallible code returns `Except String`; a raised ValueError is `.error`. -/

namespace GLA

/-- A Python float value: NaN, a signed infinity, or a finite rational. -/
inductive F : Type
  | nan : F
  | inf (neg : Bool) : F
  | fin (q : ℚ) : F
deriving DecidableEq, Repr

namespace F

/-- math.isnan -/
def isNan : F → Bool
  | nan => true
  | _ => false

/-- abs() on floats. -/
def fabs : F → F
  | nan => nan
  | inf _ => inf false
  | fin q => fin |q|

/-- IEEE subtraction. -/
def fsub : F → F → F
  | nan, _ => nan
  | inf _, nan => nan
  | inf n, inf m => if n = m then nan else inf n
  | inf n, fin _ => inf n
  | fin _, nan => nan
  | fin _, inf m => inf (!m)
  | fin a, fin b => fin (a - b)

/-- IEEE multiplication. -/
def fmul : F → F → F
  | nan, _ => nan
  | inf _, nan => nan
  | inf n, inf m => inf (xor n m)
  | inf n, fin q => if q = 0 then nan else inf (xor n (decide (q < 0)))
  | fin _, nan => nan
  | fin q, inf m => if q = 0 then nan else inf (xor m (decide (q < 0)))
  | fin a, fin b => fin (a * b)

/-- Float division.  Finite / finite-zero raises ZeroDivisionError in Python;
    every call site in the engine guards the denominator away from zero, so
    the `nan` produced for that case here is unreachable. -/
def fdiv : F → F → F
  | nan, _ => nan
  | inf _, nan => nan
  | inf _, inf _ => nan
  | inf n, fin q => inf (xor n (decide (q < 0)))
  | fin _, nan => nan
  | fin _, inf _ => fin 0
  | fin a, fin b => if b = 0 then nan else fin (a / b)

/-- Python max(a, b) for a float `a` and a finite float `b`:
    returns `b` when `b > a`, else `a` (so NaN wins, as `b > nan` is False). -/
def fmax : F → ℚ → F
  | nan, _ => nan
  | inf n, q => if n then fin q else inf false
  | fin a, q => if a < q then fin q else fin a

/-- a >= q (False when a is NaN). -/
def fge : F → ℚ → Bool
  | nan, _ => false
  | inf n, _ => !n
  | fin a, q => decide (q ≤ a)

/-- a > q (False when a is NaN). -/
def fgt : F → ℚ → Bool
  | nan, _ => false
  | inf n, _ => !n
  | fin a, q => decide (q < a)

/-- a < q (False when a is NaN). -/
def flt : F → ℚ → Bool
  | nan, _ => false
  | inf n, _ => n
  | fin a, q => decide (a < q)

/-- a > b on two floats (False when either is NaN). -/
def fgtF : F → F → Bool
  | nan, _ => false
  | inf _, nan => false
  | inf n, inf m => !n && m
  | inf n, fin _ => !n
  | fin _, nan => false
  | fin _, inf m => m
  | fin a, fin b => decide (b < a)

end F

/-- Characters treated as surrounding whitespace by str.strip() / float(). -/
def isSpaceChar (c : Char) : Bool :=
  c = ' ' || c = '\t' || c = '\n' || c = '\r' || c = '\x0b' || c = '\x0c'

/-- Strip leading and trailing whitespace from a character list. -/
def trimChars (l : List Char) : List Char :=
  ((l.dropWhile isSpaceChar).reverse.dropWhile isSpaceChar).reverse

/-- Numeric value of a digit list (most significant first). -/
def digitsVal (l : List Char) : ℕ :=
  l.foldl (fun a c => a * 10 + (c.toNat - 48)) 0

/-- Parse an optionally signed nonempty digit run covering the whole input. -/
def parseSignedDigits (l : List Char) : Option (Bool × ℕ) :=
  let p := match l with
    | '-' :: t => (true, t)
    | '+' :: t => (false, t)
    | _ => (false, l)
  let d := p.2.takeWhile Char.isDigit
  if !d.isEmpty && (p.2.dropWhile Char.isDigit).isEmpty then
    some (p.1, digitsVal d)
  else none

/-- Parse the part following the mantissa: empty, or an exponent marker with a
    signed digit run. -/
def parseExpPart : List Char → Option (Bool × ℕ)
  | [] => some (false, 0)
  | 'e' :: t => parseSignedDigits t
  | _ => none

/-- Python float(string) on an already lower-cased, whitespace-stripped
    character list.  Accepts [sign] digits [. digits] [e [sign] digits] with at
    least one mantissa digit, and the literals inf / infinity / nan.  Any other
    input raises ValueError, which the callers of this model turn into NaN, so
    invalid input is mapped to `F.nan` directly.  (Digit-group underscores are
    outside the model.) -/
def floatOfChars (l : List Char) : F :=
  let sp := match l with
    | '-' :: t => (true, t)
    | '+' :: t => (false, t)
    | _ => (false, l)
  let neg := sp.1
  let l1 := sp.2
  if l1 = ['i', 'n', 'f'] || l1 = ['i', 'n', 'f', 'i', 'n', 'i', 't', 'y'] then
    F.inf neg
  else if l1 = ['n', 'a', 'n'] then F.nan
  else
    let ip := l1.takeWhile Char.isDigit
    let r1 := l1.dropWhile Char.isDigit
    let fr := match r1 with
      | '.' :: t => (t.takeWhile Char.isDigit, t.dropWhile Char.isDigit)
      | _ => ([], r1)
    let fp := fr.1
    if ip.isEmpty && fp.isEmpty then F.nan
    else
      match parseExpPart fr.2 with
      | none => F.nan
      | some (eneg, e) =>
        let base : ℚ := (digitsVal ip : ℚ) + (digitsVal fp : ℚ) / 10 ^ fp.length
        let m : ℚ := if eneg then base / 10 ^ e else base * 10 ^ e
        F.fin (if neg then -m else m)

/-- Python float(s) for a string, including float()'s own whitespace and case
    tolerance. -/
def floatOfString (s : String) : F :=
  floatOfChars ((trimChars s.data).map Char.toLower)

/-- x.strip().lower() -/
def lowerStrip (s : String) : String :=
  String.mk ((trimChars s.data).map Char.toLower)

/-- A dynamically typed cell value, as read from a DataFrame row. -/
inductive PyVal : Type
  | vNone : PyVal
  | vBool (b : Bool) : PyVal
  | vInt (n : ℤ) : PyVal
  | vFloat (f : F) : PyVal
  | vStr (s : String) : PyVal
deriving DecidableEq, Repr

open PyVal

/-- deviation_engine.to_float: convert to float, returning NaN on blanks and
    errors; booleans are explicitly mapped to NaN. -/
def to_float : PyVal → F
  | vNone => F.nan
  | vBool _ => F.nan
  | vInt n => F.fin n
  | vFloat f => f
  | vStr s => floatOfString s

/-- deviation_engine.to_bool: convert common truthy/falsey values to bool,
    returning none when unknown (None, NaN, ints, non-NaN floats, other
    strings). -/
def to_bool : PyVal → Option Bool
  | vNone => none
  | vFloat F.nan => none
  | vBool b => some b
  | vStr s =>
    let t := lowerStrip s
    if ["true", "t", "1", "yes", "y"].contains t then some true
    else if ["false", "f", "0", "no", "n"].contains t then some false
    else none
  | vFloat _ => none
  | vInt _ => none

/-- pd.to_numeric with errors="coerce" on one cell: booleans coerce to 1/0,
    unparsable values to NaN. -/
def toNumeric : PyVal → F
  | vNone => F.nan
  | vBool b => F.fin (if b then 1 else 0)
  | vInt n => F.fin n
  | vFloat f => f
  | vStr s => floatOfString s

/-- Python str() of a cell.  The engine only ever compares the result against
    the fixed labels "large" and "medium", which no numeric rendering can
    equal, so the precise decimal rendering of floats is irrelevant. -/
def pyStr : PyVal → String
  | vNone => "None"
  | vBool b => if b then "True" else "False"
  | vInt n => toString n
  | vFloat F.nan => "nan"
  | vFloat (F.inf n) => if n then "-inf" else "inf"
  | vFloat (F.fin q) => toString q
  | vStr s => s

/-- Insert for the stable insertion sort below. -/
def pyIns {α : Type} (le : α → α → Bool) (x : α) : List α → List α
  | [] => [x]
  | y :: t => if le x y then x :: y :: t else y :: pyIns le x t

/-- Stable sort with respect to a boolean "less or equal" test, modelling
    Python's stable sorted()/pandas sorts.  (pandas sort_values defaults to an
    unstable quicksort whose tie order is implementation defined; the stable
    order is one legitimate realisation and is what this model fixes.) -/
def pySort {α : Type} (le : α → α → Bool) : List α → List α
  | [] => []
  | x :: t => pyIns le x (pySort le t)

theorem pyIns_perm {α : Type} (le : α → α → Bool) (x : α) (l : List α) :
    (pyIns le x l).Perm (x :: l) := by
  induction l with
  | nil => simp [pyIns]
  | cons y t ih =>
    simp only [pyIns]
    by_cases h : le x y = true
    · simp [h]
    · simp only [h, if_false]
      exact ((ih.cons y).trans (List.Perm.swap x y t))

theorem pySort_perm {α : Type} (le : α → α → Bool) (l : List α) :
    (pySort le l).Perm l := by
  induction l with
  | nil => simp [pySort]
  | cons x t ih => exact (pyIns_perm le x (pySort le t)).trans (ih.cons x)

/-- Order-preserving deduplication keeping first occurrences
    (dict.fromkeys), with an accumulator of already seen keys. -/
def dedupFirstGo {α : Type} [DecidableEq α] (seen : List α) : List α → List α
  | [] => []
  | a :: t => if a ∈ seen then dedupFirstGo seen t else a :: dedupFirstGo (a :: seen) t

/-- list(dict.fromkeys(l)): first-occurrence deduplication. -/
def dedupFirst {α : Type} [DecidableEq α] (l : List α) : List α :=
  dedupFirstGo [] l

/-- Substring test on character lists (Python `needle in hay`). -/
def subList {α : Type} [DecidableEq α] (needle : List α) : List α → Bool
  | [] => needle.isEmpty
  | a :: t => needle.isPrefixOf (a :: t) || subList needle t

/-- Python `needle in hay` for strings. -/
def strContainsSub (hay needle : String) : Bool :=
  subList needle.data hay.data

/-- Python int() truncation toward zero on a rational. -/
def pyInt (q : ℚ) : ℤ :=
  Int.tdiv q.num (q.den : ℤ)

/-- Round half to even (Python float formatting and round()). -/
def rhe (q : ℚ) : ℤ :=
  let f := ⌊q⌋
  let r := q - f
  if r < 1/2 then f
  else if 1/2 < r then f + 1
  else if f % 2 = 0 then f else f + 1


/-! ### Configuration (deviation_engine.py lines 88-285)

    Numeric defaults are written exactly as in the source; decimal literals
    denote exact rationals.  Dict-valued fields (profiles, language buckets,
    enabled checks) are association lists in insertion order. -/

/-- Numeric cutoffs (dataclass Thresholds). -/
structure Thresholds : Type where
  high_cv : ℚ := 1.0
  moderate_cv : ℚ := 0.7
  /-- skew proxy (mean vs median); named mean_median_gap_ratio in the source -/
  mean_median_gap_cut : ℚ := 0.38
  pearson_skew_abs : ℚ := 1.2
  rel_mean_shift : ℚ := 0.75
  rel_std_jump : ℚ := 0.80
  cohens_d_large : ℚ := 0.8
  cohens_d_medium : ℚ := 0.5
  sign_reversal_min_mean_pct : ℚ := 0.60
  new_activity_factor : ℚ := 10.0
deriving DecidableEq, Repr

/-- Integer score contributions per trigger (dataclass Weights). -/
structure Weights : Type where
  distribution_change : ℤ := 5
  mean_shift : ℤ := 5
  effect_large : ℤ := 4
  effect_medium : ℤ := 2
  high_cv : ℤ := 2
  moderate_cv : ℤ := 1
  mean_median_gap : ℤ := 2
  pearson_skew : ℤ := 1
  volatility_jump : ℤ := 2
  low_mean_high_variance : ℤ := 2
  new_activity : ℤ := 2
  sign_reversal : ℤ := 3
deriving DecidableEq, Repr

/-- Per-metric materiality gates and weight multipliers
    (dataclass MetricProfile). -/
structure MetricProfile : Type where
  name : String
  min_mean_pct_for_cv : ℚ := 0.60
  min_mean_pct_for_effect : ℚ := 0.30
  effect_weight_mult : ℚ := 1.0
  cv_weight_mult : ℚ := 1.0
  low_mean_pct : ℚ := 0.30
  high_std_pct : ℚ := 0.70
deriving DecidableEq, Repr

/-- default_profiles() -/
def default_profiles : List (String × MetricProfile) :=
  [ ("Credit",
      { name := "Credit", min_mean_pct_for_cv := 0.60, min_mean_pct_for_effect := 0.60 }),
    ("Debit",
      { name := "Debit", min_mean_pct_for_cv := 0.30, min_mean_pct_for_effect := 0.30 }),
    ("Running_Balance",
      { name := "Running_Balance", min_mean_pct_for_cv := 0.75,
        min_mean_pct_for_effect := 0.78, effect_weight_mult := 0.7,
        cv_weight_mult := 0.8 }),
    ("GST",
      { name := "GST", min_mean_pct_for_cv := 0.40, min_mean_pct_for_effect := 0.45,
        effect_weight_mult := 0.9, cv_weight_mult := 0.9 }) ]

/-- Score cutoffs, caps and gates (dataclass Tiering). -/
structure Tiering : Type where
  tier1_min_score : ℤ := 14
  tier2_min_score : ℤ := 7
  tier3_min_score : ℤ := 5
  include_tier3 : Bool := false
  max_tier1 : ℤ := 10
  tier1_materiality_pct : ℚ := 0.75
  tier1_override_score : ℤ := 28
  drop_pure_volatility_below_mean_pct : ℚ := 0.80
  require_any_of_triggers : List String :=
    [ "Distribution Change", "Mean Shift", "Large Effect Size",
      "Low Mean with High Variance", "New Activity / Re-start",
      "Sign Reversal", "High CV", "Mean-Median Gap" ]
deriving DecidableEq, Repr

/-- Bucket-to-remediation texts (dataclass Language). -/
structure Language : Type where
  bucket_finish : List (String × String) :=
    [ ("revenue", "Check cut-off, pricing/mix changes, and recognition timing."),
      ("cash", "Often driven by batch journals, timing, bank rule changes, or missed automation."),
      ("timing", "Common causes are accruals vs prepaids, one-offs, or timing corrections."),
      ("clearing", "Usually points to reconciliation gaps, clearing discipline, or mis-postings into control accounts."),
      ("tax", "Validate coding, rate mapping, and whether supply classification changed."),
      ("rounding", "Unexpected activity can mask systemic posting issues or forced balancing journals."),
      ("general", "Often a mix of reclasses, one-offs, or process changes.") ]
deriving DecidableEq, Repr

/-- Default enabled_checks dict. -/
def default_enabled_checks : List (String × Bool) :=
  [ ("distribution_change", true), ("mean_shift", true), ("effect_size", true),
    ("cv", true), ("mean_median_gap", true), ("pearson_skew", true),
    ("volatility_jump", true), ("low_mean_high_variance", true),
    ("new_activity", true), ("sign_reversal", true) ]

/-- dataclass DeviationConfig. -/
structure DeviationConfig : Type where
  thresholds : Thresholds := {}
  weights : Weights := {}
  tiers : Tiering := {}
  profiles : List (String × MetricProfile) := default_profiles
  language : Language := {}
  enabled_checks : List (String × Bool) := default_enabled_checks
deriving DecidableEq, Repr

/-! ### Config serialization (default_config_dict / config_from_dict)

    `asdict` of the fixed dataclasses produces dicts with a known field set, so
    each section is modelled as an association list of field name to value;
    `Option.none` sections model dicts missing the section key.  Values in the
    tiers and profiles sections are unions of the occurring field types.
    `config_from_dict` reads only the six known top-level keys, so unknown
    top-level keys are ignored by construction; unknown keys inside a section
    are representable here and are skipped by the hasattr checks. -/

/-- A value in the "tiers" section of a config dict. -/
inductive TierVal : Type
  | ti (n : ℤ) : TierVal
  | tb (b : Bool) : TierVal
  | tq (q : ℚ) : TierVal
  | tstrs (l : List String) : TierVal
deriving DecidableEq, Repr

/-- A value in a profile sub-dict of a config dict. -/
inductive ProfVal : Type
  | pS (s : String) : ProfVal
  | pQ (q : ℚ) : ProfVal
deriving DecidableEq, Repr

/-- The dictionary shape consumed by config_from_dict.  The language section is
    collapsed to its bucket_finish sub-dict (present iff the section holds a
    bucket_finish dict). -/
structure ConfigDict : Type where
  thresholds : Option (List (String × ℚ))
  weights : Option (List (String × ℤ))
  tiers : Option (List (String × TierVal))
  enabled_checks : Option (List (String × Bool))
  profiles : Option (List (String × List (String × ProfVal)))
  language : Option (List (String × String))
deriving DecidableEq, Repr

/-- One setattr step of the thresholds loop: assign when the key is a known
    attribute, otherwise skip (hasattr is False). -/
def updThresholds (t : Thresholds) (kv : String × ℚ) : Thresholds :=
  match kv.1 with
  | "high_cv" => { t with high_cv := kv.2 }
  | "moderate_cv" => { t with moderate_cv := kv.2 }
  | "mean_median_gap_ratio" => { t with mean_median_gap_cut := kv.2 }
  | "pearson_skew_abs" => { t with pearson_skew_abs := kv.2 }
  | "rel_mean_shift" => { t with rel_mean_shift := kv.2 }
  | "rel_std_jump" => { t with rel_std_jump := kv.2 }
  | "cohens_d_large" => { t with cohens_d_large := kv.2 }
  | "cohens_d_medium" => { t with cohens_d_medium := kv.2 }
  | "sign_reversal_min_mean_pct" => { t with sign_reversal_min_mean_pct := kv.2 }
  | "new_activity_factor" => { t with new_activity_factor := kv.2 }
  | _ => t

/-- One setattr step of the weights loop. -/
def updWeights (w : Weights) (kv : String × ℤ) : Weights :=
  match kv.1 with
  | "distribution_change" => { w with distribution_change := kv.2 }
  | "mean_shift" => { w with mean_shift := kv.2 }
  | "effect_large" => { w with effect_large := kv.2 }
  | "effect_medium" => { w with effect_medium := kv.2 }
  | "high_cv" => { w with high_cv := kv.2 }
  | "moderate_cv" => { w with moderate_cv := kv.2 }
  | "mean_median_gap" => { w with mean_median_gap := kv.2 }
  | "pearson_skew" => { w with pearson_skew := kv.2 }
  | "volatility_jump" => { w with volatility_jump := kv.2 }
  | "low_mean_high_variance" => { w with low_mean_high_variance := kv.2 }
  | "new_activity" => { w with new_activity := kv.2 }
  | "sign_reversal" => { w with sign_reversal := kv.2 }
  | _ => w

/-- One setattr step of the tiers loop; require_any_of_triggers goes through
    tuple(v).  Python setattr would also accept a value of unexpected runtime
    type; the typed model applies only well-typed assignments, which covers
    every dict produced by asdict. -/
def updTiering (t : Tiering) (kv : String × TierVal) : Tiering :=
  match kv.1, kv.2 with
  | "tier1_min_score", .ti n => { t with tier1_min_score := n }
  | "tier2_min_score", .ti n => { t with tier2_min_score := n }
  | "tier3_min_score", .ti n => { t with tier3_min_score := n }
  | "include_tier3", .tb b => { t with include_tier3 := b }
  | "max_tier1", .ti n => { t with max_tier1 := n }
  | "tier1_materiality_pct", .tq q => { t with tier1_materiality_pct := q }
  | "tier1_override_score", .ti n => { t with tier1_override_score := n }
  | "drop_pure_volatility_below_mean_pct", .tq q =>
      { t with drop_pure_volatility_below_mean_pct := q }
  | "require_any_of_triggers", .tstrs l => { t with require_any_of_triggers := l }
  | _, _ => t

/-- One setattr step for a profile sub-dict. -/
def updProfile (p : MetricProfile) (kv : String × ProfVal) : MetricProfile :=
  match kv.1, kv.2 with
  | "name", .pS s => { p with name := s }
  | "min_mean_pct_for_cv", .pQ q => { p with min_mean_pct_for_cv := q }
  | "min_mean_pct_for_effect", .pQ q => { p with min_mean_pct_for_effect := q }
  | "effect_weight_mult", .pQ q => { p with effect_weight_mult := q }
  | "cv_weight_mult", .pQ q => { p with cv_weight_mult := q }
  | "low_mean_pct", .pQ q => { p with low_mean_pct := q }
  | "high_std_pct", .pQ q => { p with high_std_pct := q }
  | _, _ => p

/-- enabled_checks loop: update the value in place when the key already exists
    (dict order preserved), otherwise ignore the key.  bool(v) is the identity
    on the Bool-typed model. -/
def updEnabled (ec : List (String × Bool)) (kv : String × Bool) : List (String × Bool) :=
  if ec.any (fun e => e.1 = kv.1) then
    ec.map (fun e => if e.1 = kv.1 then (e.1, kv.2) else e)
  else ec

/-- profiles loop: update a known metric profile attribute by attribute, or
    build a fresh MetricProfile(name=metric), fill it from the sub-dict, and
    append it (dict insertion order). -/
def updProfiles (ps : List (String × MetricProfile))
    (kv : String × List (String × ProfVal)) : List (String × MetricProfile) :=
  if ps.any (fun e => e.1 = kv.1) then
    ps.map (fun e => if e.1 = kv.1 then (e.1, kv.2.foldl updProfile e.2) else e)
  else ps ++ [(kv.1, kv.2.foldl updProfile { name := kv.1 })]

/-- language loop: dict.update on bucket_finish — overwrite in place or append. -/
def updBuckets (bf : List (String × String)) (kv : String × String) :
    List (String × String) :=
  if bf.any (fun e => e.1 = kv.1) then
    bf.map (fun e => if e.1 = kv.1 then (e.1, kv.2) else e)
  else bf ++ [kv]

/-- dataclasses.asdict on Thresholds (fields in declaration order). -/
def Thresholds.asdict (t : Thresholds) : List (String × ℚ) :=
  [ ("high_cv", t.high_cv), ("moderate_cv", t.moderate_cv),
    ("mean_median_gap_ratio", t.mean_median_gap_cut),
    ("pearson_skew_abs", t.pearson_skew_abs),
    ("rel_mean_shift", t.rel_mean_shift), ("rel_std_jump", t.rel_std_jump),
    ("cohens_d_large", t.cohens_d_large), ("cohens_d_medium", t.cohens_d_medium),
    ("sign_reversal_min_mean_pct", t.sign_reversal_min_mean_pct),
    ("new_activity_factor", t.new_activity_factor) ]

/-- dataclasses.asdict on Weights. -/
def Weights.asdict (w : Weights) : List (String × ℤ) :=
  [ ("distribution_change", w.distribution_change), ("mean_shift", w.mean_shift),
    ("effect_large", w.effect_large), ("effect_medium", w.effect_medium),
    ("high_cv", w.high_cv), ("moderate_cv", w.moderate_cv),
    ("mean_median_gap", w.mean_median_gap), ("pearson_skew", w.pearson_skew),
    ("volatility_jump", w.volatility_jump),
    ("low_mean_high_variance", w.low_mean_high_variance),
    ("new_activity", w.new_activity), ("sign_reversal", w.sign_reversal) ]

/-- dataclasses.asdict on Tiering; the trigger tuple is recursively rebuilt as
    a tuple, modelled as the same string list. -/
def Tiering.asdict (t : Tiering) : List (String × TierVal) :=
  [ ("tier1_min_score", .ti t.tier1_min_score),
    ("tier2_min_score", .ti t.tier2_min_score),
    ("tier3_min_score", .ti t.tier3_min_score),
    ("include_tier3", .tb t.include_tier3),
    ("max_tier1", .ti t.max_tier1),
    ("tier1_materiality_pct", .tq t.tier1_materiality_pct),
    ("tier1_override_score", .ti t.tier1_override_score),
    ("drop_pure_volatility_below_mean_pct", .tq t.drop_pure_volatility_below_mean_pct),
    ("require_any_of_triggers", .tstrs t.require_any_of_triggers) ]

/-- dataclasses.asdict on MetricProfile. -/
def MetricProfile.asdict (p : MetricProfile) : List (String × ProfVal) :=
  [ ("name", .pS p.name),
    ("min_mean_pct_for_cv", .pQ p.min_mean_pct_for_cv),
    ("min_mean_pct_for_effect", .pQ p.min_mean_pct_for_effect),
    ("effect_weight_mult", .pQ p.effect_weight_mult),
    ("cv_weight_mult", .pQ p.cv_weight_mult),
    ("low_mean_pct", .pQ p.low_mean_pct),
    ("high_std_pct", .pQ p.high_std_pct) ]

/-- dataclasses.asdict on a whole DeviationConfig. -/
def asdictConfig (c : DeviationConfig) : ConfigDict where
  thresholds := some c.thresholds.asdict
  weights := some c.weights.asdict
  tiers := some c.tiers.asdict
  enabled_checks := some c.enabled_checks
  profiles := some (c.profiles.map (fun e => (e.1, e.2.asdict)))
  language := some c.language.bucket_finish

/-- default_config_dict() -/
def default_config_dict : ConfigDict :=
  asdictConfig {}

/-- config_from_dict (deviation_engine.py lines 241-285): start from a default
    DeviationConfig and fold each present section over its setattr loop. -/
def config_from_dict (d : ConfigDict) : DeviationConfig :=
  let c0 : DeviationConfig := {}
  { thresholds :=
      match d.thresholds with
      | none => c0.thresholds
      | some l => l.foldl updThresholds c0.thresholds
    weights :=
      match d.weights with
      | none => c0.weights
      | some l => l.foldl updWeights c0.weights
    tiers :=
      match d.tiers with
      | none => c0.tiers
      | some l => l.foldl updTiering c0.tiers
    enabled_checks :=
      match d.enabled_checks with
      | none => c0.enabled_checks
      | some l => l.foldl updEnabled c0.enabled_checks
    profiles :=
      match d.profiles with
      | none => c0.profiles
      | some l => l.foldl updProfiles c0.profiles
    language :=
      match d.language with
      | none => c0.language
      | some bf => { bucket_finish := bf.foldl updBuckets c0.language.bucket_finish } }


/-! ### Input frame, metric detection and percentile ranking
    (deviation_engine.py lines 57-82) -/

/-- One DataFrame row: an association list from column name to cell value.
    `r.get(col)` yields None for a missing column. -/
def Row : Type := List (String × PyVal)

instance : DecidableEq Row := by unfold Row; infer_instance

/-- Series.get(col) — None when the column is missing. -/
def rowGet (r : Row) (c : String) : PyVal :=
  (r.lookup c).getD vNone

/-- Series.get(col, default). -/
def rowGetD (r : Row) (c : String) (d : PyVal) : PyVal :=
  (r.lookup c).getD d

/-- A DataFrame: ordered column names plus rows. -/
structure Frame : Type where
  cols : List String
  rows : List Row
deriving DecidableEq

/-- Lexicographic code-point comparison of character lists (Python string <=). -/
def charListLe : List Char → List Char → Bool
  | [], _ => true
  | _ :: _, [] => false
  | a :: s, b :: t => if a = b then charListLe s t else decide (a < b)

/-- Python string <=. -/
def strLe (a b : String) : Bool :=
  charListLe a.data b.data

/-- Match of the regex (.*)_CY_Mean against a whole column name. -/
def stripCYMean (c : String) : Option String :=
  let suf := "_CY_Mean".data
  if suf.isSuffixOf c.data then
    some (String.mk (c.data.take (c.data.length - suf.length)))
  else none

/-- pref.index(x) with the 999 fallback used as sort key in detect_metrics. -/
def prefIndex (x : String) : ℕ :=
  if x = "Credit" then 0
  else if x = "Debit" then 1
  else if x = "Running_Balance" then 2
  else if x = "GST" then 3
  else 999

/-- detect_metrics: collect the distinct prefixes of Metric_CY_Mean columns and
    sort them by (preferred position, name).  The Python set has no stable
    order, but the final sorted() with an injective key makes the result
    order-canonical, which the first-occurrence dedup plus stable sort here
    reproduces. -/
def detect_metrics (columns : List String) : List String :=
  pySort
    (fun a b =>
      decide (prefIndex a < prefIndex b) ||
        (decide (prefIndex a = prefIndex b) && strLe a b))
    (dedupFirst (columns.filterMap stripCYMean))

/-- .abs() followed by replacing infinities with NaN: the value a cell
    contributes to the percentile ranking, none when it is dropped as NaN. -/
def absNum : F → Option ℚ
  | F.fin q => some |q|
  | _ => none

/-- percentile_rank_abs, evaluated at one value of the column: the pandas
    fractional (average) percentile rank of `v` among the non-null absolute
    values of the whole column, none when `v` itself is NaN (or when the
    column has no non-null value at all). -/
def pctRankAbs (batch : List F) (v : F) : Option ℚ :=
  match absNum v with
  | none => none
  | some a =>
    let nn := batch.filterMap absNum
    if nn.isEmpty then none
    else
      some (((nn.countP (fun u => decide (u < a)) : ℚ) +
              ((nn.countP (fun u => decide (u = a)) : ℚ) + 1) / 2) / nn.length)

/-- The to_numeric-coerced values of one column across the frame, none when
    the column is absent (percentile_rank_abs then yields an all-NaN series). -/
def colVals (fr : Frame) (c : String) : Option (List F) :=
  if fr.cols.contains c then
    some (fr.rows.map (fun r => toNumeric (rowGet r c)))
  else none

/-- The percentile-rank series of one column, looked up at one row. -/
def colPct (fr : Frame) (r : Row) (c : String) : Option ℚ :=
  match colVals fr c with
  | none => none
  | some batch => pctRankAbs batch (toNumeric (rowGet r c))

/-- mean_pct[m] and std_pct[m] looked up at one row: the percentile ranks of
    abs(CY mean) and abs(CY std) of this row within the batch. -/
def rowPcts (fr : Frame) (r : Row) (m : String) : Option ℚ × Option ℚ :=
  (colPct fr r (m ++ "_CY_Mean"), colPct fr r (m ++ "_CY_Std"))

/-- pct_ok: percentile present and at least the threshold. -/
def pct_ok (p : Option ℚ) (threshold : ℚ) : Bool :=
  match p with
  | none => false
  | some v => decide (threshold ≤ v)

/-! ### Narrator (bucketize / interpret, deviation_engine.py lines 291-340) -/

/-- All-character lowercasing (str.lower()). -/
def pyLower (s : String) : String :=
  String.mk (s.data.map Char.toLower)

/-- Join a list of strings with a separator. -/
def joinSep (sep : String) : List String → String
  | [] => ""
  | [x] => x
  | x :: t => x ++ sep ++ joinSep sep t

/-- bucketize: first keyword family that matches the lower-cased account name
    wins; order matters. -/
def bucketize (account_name : String) : String :=
  let n := pyLower account_name
  if ["sales", "revenue", "income"].any (fun k => strContainsSub n k) then "revenue"
  else if ["bank", "merchant", "eftpos", "stripe", "fees", "interest"].any
      (fun k => strContainsSub n k) then "cash"
  else if ["insurance", "subscription", "subscriptions", "prepaid", "licence",
      "license", "annual"].any (fun k => strContainsSub n k) then "timing"
  else if ["payable", "receivable", "deposit", "clearing", "suspense", "control",
      "intercompany", "loan", "hire purchase", "hp"].any
      (fun k => strContainsSub n k) then "clearing"
  else if ["gst", "vat", "tax", "rwt"].any (fun k => strContainsSub n k) then "tax"
  else if ["rounding", "round off", "round-off"].any
      (fun k => strContainsSub n k) then "rounding"
  else "general"

/-- interpret: subject keyed by the dominant metric, clause fragments keyed by
    the fired triggers, then the bucket remediation text.  A missing "general"
    bucket would raise KeyError in Python; the model returns "" there. -/
def interpret (account_name : String) (dominant_metric : String)
    (triggers : List String) (lang : Language) : String :=
  let bucket := bucketize account_name
  let subject :=
    if dominant_metric = "Credit" then "Credit postings"
    else if dominant_metric = "Debit" then "Debit postings"
    else if dominant_metric = "Running_Balance" then "Balance movements"
    else if dominant_metric = "GST" then "GST behaviour"
    else dominant_metric ++ " behaviour"
  let bits : List String :=
    (if triggers.contains "Distribution Change" then
      ["posting pattern changed versus last year"] else []) ++
    (if triggers.contains "Mean Shift" then
      ["average level moved materially"] else []) ++
    (if triggers.contains "Large Effect Size" then
      ["change looks practically large, not just noise"] else []) ++
    (if triggers.contains "High CV" then
      ["volatility is lumpy and irregular"] else []) ++
    (if triggers.contains "Low Mean with High Variance" then
      ["small average with outsized variability suggests batching or timing noise"] else []) ++
    (if triggers.contains "Mean-Median Gap" then
      ["skew suggests outliers or one-offs"] else []) ++
    (if triggers.contains "Pearson Skew" then
      ["outliers likely dominate the movement"] else []) ++
    (if triggers.contains "New Activity / Re-start" then
      ["activity appears newly introduced or restarted"] else []) ++
    (if triggers.contains "Sign Reversal" then
      ["direction flipped (possible reclass/contra entries)"] else [])
  let middle := if bits.isEmpty then "shows unusual movement versus last year"
    else joinSep "; " bits
  let finish := (lang.bucket_finish.lookup bucket).getD
    ((lang.bucket_finish.lookup "general").getD "")
  subject ++ ": " ++ middle ++ ". " ++ finish

/-! ### Evidence-string formatting
    (_fmt_num / _fmt_rel_change / _sig_pack / format_metric_values_blob,
    deviation_engine.py lines 641-751) -/

/-- Left-pad a digit string with zeros to the given width. -/
def padZeros (w : ℕ) (s : String) : String :=
  String.mk (List.replicate (w - s.length) '0') ++ s

/-- Fixed-point rendering of an exact rational with the given number of
    decimals, rounding half to even (the f-string .Nf format, idealised to
    exact rationals). -/
def fmtFixed (dec : ℕ) (q : ℚ) : String :=
  let n := rhe (q * 10 ^ dec)
  let a := n.natAbs
  let sgn := if q < 0 then "-" else ""
  if dec = 0 then sgn ++ toString a
  else sgn ++ toString (a / 10 ^ dec) ++ "." ++ padZeros dec (toString (a % 10 ^ dec))

/-- The f-string .2f format on a float. -/
def fmtF2 : F → String
  | F.nan => "nan"
  | F.inf n => if n then "-inf" else "inf"
  | F.fin q => fmtFixed 2 q

/-- _fmt_num with its default max_dec = 2 (the only arity used): empty for
    NaN, thousand/million/billion suffixes otherwise.  An infinity lands in
    the billion branch and renders as inf. -/
def fmt_num : F → String
  | F.nan => ""
  | F.inf n => (if n then "-inf" else "inf") ++ "b"
  | F.fin q =>
    if 1000000000 ≤ |q| then fmtFixed 2 (q / 1000000000) ++ "b"
    else if 1000000 ≤ |q| then fmtFixed 2 (q / 1000000) ++ "m"
    else if 1000 ≤ |q| then fmtFixed 2 (q / 1000) ++ "k"
    else fmtFixed 2 q

/-- The f-string +.0% format on a float. -/
def fmtPctSigned : F → String
  | F.nan => "+nan%"
  | F.inf n => if n then "-inf%" else "+inf%"
  | F.fin q => (if q < 0 then "-" else "+") ++ toString (rhe (q * 100)).natAbs ++ "%"

/-- _fmt_rel_change: signed percentage move from ly to cy, empty when either
    is NaN. -/
def fmt_rel_change (cy ly : F) : String :=
  if F.isNan ly || F.isNan cy then ""
  else fmtPctSigned (F.fdiv (F.fsub cy ly) (F.fmax (F.fabs ly) (1/1000000000)))

/-- _sig_pack: short tokens of the significance flags that are known True,
    in the fixed order T, A, MW, KS. -/
def sig_pack (t anova mw ks : Option Bool) : String :=
  joinSep ","
    ((if t == some true then ["T"] else []) ++
     (if anova == some true then ["A"] else []) ++
     (if mw == some true then ["MW"] else []) ++
     (if ks == some true then ["KS"] else []))

/-- The trigger names eligible as tag hints in the evidence blob. -/
def blob_tag_set : List String :=
  [ "Distribution Change", "Mean Shift", "Large Effect Size", "High CV",
    "Low Mean with High Variance", "Mean-Median Gap", "Pearson Skew",
    "Volatility Jump", "Sign Reversal", "New Activity / Re-start" ]

/-- The tag-collection loop of format_metric_values_blob: walk the triggers,
    keep those in the allowed set, stop once three are collected. -/
def blobTagsGo (acc : List String) : List String → List String
  | [] => acc
  | x :: rest =>
    let acc2 := if blob_tag_set.contains x then acc ++ [x] else acc
    if 3 ≤ acc2.length then acc2 else blobTagsGo acc2 rest

/-- format_metric_values_blob: the compact per-metric evidence string. -/
def format_metric_values_blob (metric : String)
    (ly_mean cy_mean mean_diff ly_std cy_std cv mm_gap p_skew cohens_d : F)
    (t_sig anova_sig mw_sig ks_sig : Option Bool)
    (triggers : List String) : String :=
  let parts1 : List String :=
    if !F.isNan ly_mean || !F.isNan cy_mean then
      let s := if !F.isNan ly_mean then "LYμ:" ++ fmt_num ly_mean else ""
      let s2 := if !F.isNan cy_mean then "CYμ:" ++ fmt_num cy_mean else ""
      let rel0 := fmt_rel_change cy_mean ly_mean
      let rel := if rel0 = "" then "" else "(" ++ rel0 ++ ")"
      let means := joinSep " " ([s, s2, rel].filter (fun x => x ≠ ""))
      if means = "" then [] else [means]
    else []
  let parts2 : List String :=
    if !F.isNan cy_std || !F.isNan cv then
      [joinSep " "
        ((if !F.isNan cy_std then ["CYσ:" ++ fmt_num cy_std] else []) ++
         (if !F.isNan cv then ["CV:" ++ fmtF2 cv] else []))]
    else []
  let parts3 : List String := if !F.isNan mm_gap then ["μ~med:" ++ fmtF2 mm_gap] else []
  let parts4 : List String := if !F.isNan p_skew then ["skew:" ++ fmtF2 p_skew] else []
  let parts5 : List String := if !F.isNan cohens_d then ["d:" ++ fmtF2 cohens_d] else []
  let sigs := sig_pack t_sig anova_sig mw_sig ks_sig
  let parts6 : List String := if sigs ≠ "" then ["sig[" ++ sigs ++ "]"] else []
  let tags := blobTagsGo [] triggers
  let parts7 : List String := if !tags.isEmpty then ["tag[" ++ joinSep "," tags ++ "]"] else []
  let core := joinSep "; "
    ((parts1 ++ parts2 ++ parts3 ++ parts4 ++ parts5 ++ parts6 ++ parts7).filter
      (fun p => p ≠ ""))
  if core = "" then metric ++ ": (no numeric evidence)" else metric ++ ": " ++ core


/-! ### Core scoring (build_deviation_report, deviation_engine.py lines 346-622) -/

/-- Is a parsed significance flag affirmatively True (`x is True`)? -/
def isTrueOpt (b : Option Bool) : Bool :=
  b == some true

/-- The eff string: str(raw).strip().lower() unless the cell is None or a NaN
    float, in which case "". -/
def effString : PyVal → String
  | vNone => ""
  | vFloat F.nan => ""
  | v => lowerStrip (pyStr v)

/-- cfg.profiles.get(m, MetricProfile(m)). -/
def profFor (profiles : List (String × MetricProfile)) (m : String) : MetricProfile :=
  (profiles.lookup m).getD { name := m }

/-- cfg.enabled_checks[k].  A missing key raises KeyError in Python; every
    configuration built by this model carries all ten keys, and the model
    treats a missing key as a disabled check. -/
def enabledCheck (ec : List (String × Bool)) (k : String) : Bool :=
  (ec.lookup k).getD false

/-- The slice of a DeviationConfig read by the per-metric scoring loop
    (everything except tiering and language). -/
structure ScorerCfg : Type where
  thresholds : Thresholds
  weights : Weights
  profiles : List (String × MetricProfile)
  enabled_checks : List (String × Bool)
deriving DecidableEq

/-- Project the scorer slice out of a full config. -/
def DeviationConfig.scorer (c : DeviationConfig) : ScorerCfg :=
  ⟨c.thresholds, c.weights, c.profiles, c.enabled_checks⟩

/-- Result of the per-metric scoring loop body: the score, the deduplicated
    trigger list, and the formatted evidence string. -/
structure MEval : Type where
  score : ℤ
  trig : List String
  blob : String
deriving DecidableEq

/-- The body of the per-metric loop of build_deviation_report (lines 375-510):
    parse the cells of one metric, evaluate every enabled check in source
    order, and accumulate weighted points and trigger names.  `pcts` carries
    this row's (mean percentile, std percentile) for the metric. -/
def evalMetric (sc : ScorerCfg) (pcts : Option ℚ × Option ℚ) (r : Row)
    (m : String) : MEval :=
  let p := profFor sc.profiles m
  let ly_mean := to_float (rowGet r (m ++ "_LY_Mean"))
  let cy_mean := to_float (rowGet r (m ++ "_CY_Mean"))
  let ly_std := to_float (rowGet r (m ++ "_LY_Std"))
  let cy_std := to_float (rowGet r (m ++ "_CY_Std"))
  let cy_med := to_float (rowGet r (m ++ "_CY_Median"))
  let mean_diff := to_float (rowGet r (m ++ "_Mean_Diff"))
  let std_diff := to_float (rowGet r (m ++ "_Std_Diff"))
  let t_sig := to_bool (rowGet r (m ++ "_TTest_Significant"))
  let mw_sig := to_bool (rowGet r (m ++ "_MannWhitney_Significant"))
  let ks_sig := to_bool (rowGet r (m ++ "_KS_Significant"))
  let anova_sig := to_bool (rowGet r (m ++ "_ANOVA_Significant"))
  let eff := effString (rowGet r (m ++ "_Effect_Size"))
  let cohens_d := to_float (rowGet r (m ++ "_Cohens_D"))
  let mean_mat := pct_ok pcts.1 p.min_mean_pct_for_cv
  let eff_mat := pct_ok pcts.1 p.min_mean_pct_for_effect
  let cv :=
    if F.isNan cy_std || F.isNan cy_mean then F.nan
    else F.fdiv (F.fabs cy_std) (F.fmax (F.fabs cy_mean) (1/1000000000))
  let mm_gap :=
    if F.isNan cy_mean || F.isNan cy_med then F.nan
    else F.fdiv (F.fabs (F.fsub cy_mean cy_med)) (F.fmax (F.fabs cy_mean) (1/1000000000))
  let p_skew :=
    if !(F.isNan cy_mean || F.isNan cy_med || F.isNan cy_std) &&
        F.fgt (F.fabs cy_std) (1/1000000000000) then
      F.fabs (F.fdiv (F.fmul (F.fin 3) (F.fsub cy_mean cy_med)) cy_std)
    else F.nan
  let dist_change := isTrueOpt ks_sig || isTrueOpt mw_sig
  let mean_change := isTrueOpt t_sig || isTrueOpt anova_sig
  let eff_large := eff == "large" ||
    (!F.isNan cohens_d && F.fge (F.fabs cohens_d) sc.thresholds.cohens_d_large)
  let eff_med := eff == "medium" ||
    (!F.isNan cohens_d && F.fge (F.fabs cohens_d) sc.thresholds.cohens_d_medium)
  let st0 : ℤ × List String := (0, [])
  let st1 :=
    if enabledCheck sc.enabled_checks "distribution_change" && dist_change then
      if eff_mat || mean_change || eff_large then
        (st0.1 + sc.weights.distribution_change, st0.2 ++ ["Distribution Change"])
      else
        (st0.1 + pyInt ((sc.weights.distribution_change : ℚ) * 0.4),
          st0.2 ++ ["Distribution Change"])
    else st0
  let st2 :=
    if enabledCheck sc.enabled_checks "mean_shift" && mean_change then
      if eff_mat || eff_large then
        (st1.1 + sc.weights.mean_shift, st1.2 ++ ["Mean Shift"])
      else
        (st1.1 + pyInt ((sc.weights.mean_shift : ℚ) * 0.5), st1.2 ++ ["Mean Shift"])
    else if enabledCheck sc.enabled_checks "mean_shift" then
      if !(F.isNan mean_diff || F.isNan ly_mean || F.isNan cy_mean) then
        let rel := F.fdiv (F.fabs mean_diff) (F.fmax (F.fabs ly_mean) (1/1000000000))
        if F.fge rel sc.thresholds.rel_mean_shift && eff_mat then
          (st1.1 + pyInt ((sc.weights.mean_shift : ℚ) * 0.5), st1.2 ++ ["Mean Shift"])
        else st1
      else st1
    else st1
  let big_move := !(F.isNan mean_diff || F.isNan ly_mean) &&
    F.fgtF (F.fabs mean_diff)
      (F.fmul (F.fmax (F.fabs ly_mean) (1/1000000000)) (F.fin sc.thresholds.rel_mean_shift))
  let st3 :=
    if enabledCheck sc.enabled_checks "effect_size" then
      if eff_large && (dist_change || mean_change || big_move) && eff_mat then
        (st2.1 + pyInt ((sc.weights.effect_large : ℚ) * p.effect_weight_mult),
          st2.2 ++ ["Large Effect Size"])
      else if eff_med && (dist_change || mean_change) && eff_mat then
        (st2.1 + pyInt ((sc.weights.effect_medium : ℚ) * p.effect_weight_mult),
          st2.2 ++ ["Medium Effect Size"])
      else st2
    else st2
  let st4 :=
    if enabledCheck sc.enabled_checks "cv" && !F.isNan cv then
      if F.fge cv sc.thresholds.high_cv && mean_mat then
        (st3.1 + pyInt ((sc.weights.high_cv : ℚ) * p.cv_weight_mult),
          st3.2 ++ ["High CV"])
      else if F.fge cv sc.thresholds.moderate_cv && mean_mat then
        (st3.1 + pyInt ((sc.weights.moderate_cv : ℚ) * p.cv_weight_mult),
          st3.2 ++ ["Moderate CV"])
      else st3
    else st3
  let st5 :=
    if enabledCheck sc.enabled_checks "low_mean_high_variance" && !F.isNan cv then
      match pcts.1 with
      | some mp =>
        if decide (mp ≤ p.low_mean_pct) && pct_ok pcts.2 p.high_std_pct &&
            F.fge cv sc.thresholds.high_cv then
          (st4.1 + sc.weights.low_mean_high_variance,
            st4.2 ++ ["Low Mean with High Variance"])
        else st4
      | none => st4
    else st4
  let st6 :=
    if enabledCheck sc.enabled_checks "mean_median_gap" && !F.isNan mm_gap then
      if F.fge mm_gap sc.thresholds.mean_median_gap_cut && mean_mat then
        (st5.1 + sc.weights.mean_median_gap, st5.2 ++ ["Mean-Median Gap"])
      else st5
    else st5
  let st7 :=
    if enabledCheck sc.enabled_checks "pearson_skew" && !F.isNan p_skew then
      if F.fge p_skew sc.thresholds.pearson_skew_abs && mean_mat then
        (st6.1 + sc.weights.pearson_skew, st6.2 ++ ["Pearson Skew"])
      else st6
    else st6
  let st8 :=
    if enabledCheck sc.enabled_checks "volatility_jump" &&
        !(F.isNan std_diff || F.isNan ly_std) then
      let rel_std := F.fdiv (F.fabs std_diff) (F.fmax (F.fabs ly_std) (1/1000000000))
      if F.fge rel_std sc.thresholds.rel_std_jump && mean_mat then
        (st7.1 + pyInt ((sc.weights.volatility_jump : ℚ) * p.cv_weight_mult),
          st7.2 ++ ["Volatility Jump"])
      else st7
    else st7
  let st9 :=
    if enabledCheck sc.enabled_checks "new_activity" &&
        !(F.isNan ly_mean || F.isNan cy_mean) then
      if F.flt (F.fabs ly_mean) (1/1000000000) && eff_mat &&
          F.fgt (F.fabs cy_mean) (sc.thresholds.new_activity_factor * (1/1000000000)) then
        (st8.1 + sc.weights.new_activity, st8.2 ++ ["New Activity / Re-start"])
      else st8
    else st8
  let st10 :=
    if enabledCheck sc.enabled_checks "sign_reversal" &&
        !(F.isNan ly_mean || F.isNan cy_mean) then
      if F.flt (F.fmul ly_mean cy_mean) 0 &&
          pct_ok pcts.1 sc.thresholds.sign_reversal_min_mean_pct then
        (st9.1 + sc.weights.sign_reversal, st9.2 ++ ["Sign Reversal"])
      else st9
    else st9
  let trigD := dedupFirst st10.2
  { score := st10.1, trig := trigD,
    blob := format_metric_values_blob m ly_mean cy_mean mean_diff ly_std cy_std
      cv mm_gap p_skew cohens_d t_sig anova_sig mw_sig ks_sig trigD }

/-- Concatenate a list of lists. -/
def concatAll {α : Type} : List (List α) → List α
  | [] => []
  | x :: t => x ++ concatAll t

/-- The pure volatility trigger set (line 527). -/
def vol_set : List String :=
  ["High CV", "Moderate CV", "Mean-Median Gap", "Volatility Jump", "Pearson Skew"]

/-- The display priority of trigger names (lines 551-564). -/
def trigger_priority : List String :=
  [ "Distribution Change", "Mean Shift", "Large Effect Size",
    "Low Mean with High Variance", "High CV", "Mean-Median Gap",
    "Pearson Skew", "Volatility Jump", "Sign Reversal",
    "New Activity / Re-start", "Medium Effect Size", "Moderate CV" ]

/-- Python max(metric_scores.items(), key=score): the first entry with the
    maximal score. -/
def pickDominant (scored : List (String × MEval)) : String :=
  match scored with
  | [] => ""
  | e :: t => (t.foldl (fun best x => if best.2.score < x.2.score then x else best) e).1

/-- Everything the per-row part of the loop computes before the tier is
    assigned. -/
structure PreRow : Type where
  total : ℤ
  maxMeanPct : Option ℚ
  codeV : PyVal
  nameV : PyVal
  keyMetrics : String
  blob : String
  interp : String
  dominant : String
deriving DecidableEq

/-- The per-row part of the loop up to (but excluding) tier assignment
    (lines 370-537 and 551-587): evaluate every metric, keep the scored ones,
    apply the breadth bonus, the pure-volatility drop and the required-trigger
    gate, and render the display fields.  none means the account is dropped. -/
def evalRowPre (sc : ScorerCfg) (dropThr : ℚ) (reqTrig : List String)
    (lang : Language) (metrics : List String)
    (pct : String → Option ℚ × Option ℚ) (r : Row) : Option PreRow :=
  let evs : List (String × (Option ℚ × Option ℚ) × MEval) :=
    metrics.map (fun m => (m, pct m, evalMetric sc (pct m) r m))
  let scored := evs.filter (fun e => decide (0 < e.2.2.score))
  if scored.isEmpty then none
  else
    let total0 := (scored.map (fun e => e.2.2.score)).sum
    let total := total0 + (if 2 ≤ scored.length then 2 else 0) +
      (if 3 ≤ scored.length then 2 else 0)
    let uniq := dedupFirst (concatAll (scored.map (fun e => e.2.2.trig)))
    let maxMeanPct := (scored.filterMap (fun e => e.2.1.1)).max?
    if !uniq.isEmpty && uniq.all (fun t => vol_set.contains t) &&
        (match maxMeanPct with
         | none => true
         | some v => decide (v < dropThr)) then none
    else if !reqTrig.isEmpty && !(reqTrig.any (fun t => uniq.contains t)) then none
    else
      let dominant := pickDominant (scored.map (fun e => (e.1, e.2.2)))
      let ordered := trigger_priority.filter (fun t => uniq.contains t) ++
        uniq.filter (fun t => !trigger_priority.contains t)
      let metric_order := pySort (fun a b => decide (b.2.2.score ≤ a.2.2.score)) scored
      let ordered_metrics := metric_order.map (fun e => e.1)
      let blob_metrics := ordered_metrics.take 3
      let extra := ordered_metrics.length - blob_metrics.length
      let metric_blob0 := joinSep " | "
        (blob_metrics.map (fun m =>
          match scored.lookup m with
          | some e => e.2.blob
          | none => m ++ ": (no evidence)"))
      let metric_blob :=
        if 0 < extra then metric_blob0 ++ " | +" ++ toString extra ++ " more"
        else metric_blob0
      some
        { total := total, maxMeanPct := maxMeanPct,
          codeV := rowGetD r "Account Code" (vStr ""),
          nameV := rowGetD r "Account Name" (vStr ""),
          keyMetrics := joinSep ", " (ordered.take 6),
          blob := metric_blob,
          interp := interpret (pyStr (rowGetD r "Account Name" (vStr "")))
            dominant ordered lang,
          dominant := dominant }

/-- Tier assignment (lines 539-549): Tier-1 needs the score cutoff and either
    the materiality gate or the override score; Tier-2 and Tier-3 need only
    their cutoffs (Tier-3 also the enable flag); none drops the account. -/
def tierOf (t : Tiering) (total : ℤ) (maxPct : Option ℚ) : Option String :=
  if decide (t.tier1_min_score ≤ total) &&
      (pct_ok maxPct t.tier1_materiality_pct || decide (t.tier1_override_score ≤ total)) then
    some "Tier-1"
  else if decide (t.tier2_min_score ≤ total) then some "Tier-2"
  else if decide (t.tier3_min_score ≤ total) && t.include_tier3 then some "Tier-3"
  else none

/-- One row of the output report. -/
structure OutRow : Type where
  tier : String
  accountCode : PyVal
  accountName : PyVal
  keyMetricsTriggered : String
  metricValues : String
  interp : String
  score : ℤ
  dominantMetric : String
deriving DecidableEq

/-- Assemble the appended report row (lines 590-599). -/
def mkOutRow (tier : String) (p : PreRow) : OutRow :=
  { tier := tier, accountCode := p.codeV, accountName := p.nameV,
    keyMetricsTriggered := p.keyMetrics, metricValues := p.blob,
    interp := p.interp, score := p.total, dominantMetric := p.dominant }

/-- Full evaluation of one account row: pre-row computation, then tier
    assignment; none when the account is excluded from the report. -/
def evalRowCore (cfg : DeviationConfig) (metrics : List String)
    (pct : String → Option ℚ × Option ℚ) (r : Row) : Option OutRow :=
  (evalRowPre cfg.scorer cfg.tiers.drop_pure_volatility_below_mean_pct
      cfg.tiers.require_any_of_triggers cfg.language metrics pct r).bind
    (fun p => (tierOf cfg.tiers p.total p.maxMeanPct).map (fun tier => mkOutRow tier p))

/-- tier_rank with the fillna(9) fallback (lines 605-606). -/
def tierRank (o : OutRow) : ℕ :=
  if o.tier = "Tier-1" then 1
  else if o.tier = "Tier-2" then 2
  else if o.tier = "Tier-3" then 3
  else 9

/-- The sort key order of the output: tier rank ascending, then score
    descending. -/
def outLe (a b : OutRow) : Bool :=
  decide (tierRank a < tierRank b) ||
    (decide (tierRank a = tierRank b) && decide (b.score ≤ a.score))

/-- sort_values(["_tr", "Score"], ascending=[True, False]). -/
def sortRows (l : List OutRow) : List OutRow :=
  pySort outLe l

/-- Number of Tier-1 rows. -/
def countT1 (l : List OutRow) : ℕ :=
  l.countP (fun o => decide (o.tier = "Tier-1"))

/-- Effective start of the Python slice t1_idxs[max_tier1:] on a list of
    length c (negative indices count from the end, both ends clamped). -/
def sliceStartNat (k : ℤ) (c : ℕ) : ℕ :=
  if 0 ≤ k then min k.toNat c else c - min (-k).toNat c

/-- Demote to Tier-2 every Tier-1 row whose Tier-1 ordinal (counted from
    `seen`) is at least `start`. -/
def demoteGo (start : ℕ) : List OutRow → ℕ → List OutRow
  | [], _ => []
  | o :: rest, seen =>
    if o.tier = "Tier-1" then
      (if start ≤ seen then { o with tier := "Tier-2" } else o) ::
        demoteGo start rest (seen + 1)
    else o :: demoteGo start rest seen

/-- The Tier-1 cap (lines 609-614): when max_tier1 is truthy and the Tier-1
    count exceeds it, demote the Tier-1 rows past the slice start to Tier-2
    and re-sort. -/
def capTier1 (k : ℤ) (l : List OutRow) : List OutRow :=
  if k ≠ 0 && decide (k < (countT1 l : ℤ)) then
    sortRows (demoteGo (sliceStartNat k (countT1 l)) l 0)
  else l

/-- The report row list produced for a validated frame: evaluate every row
    against the batch percentiles, sort, and apply the Tier-1 cap. -/
def reportRows (fr : Frame) (cfg : DeviationConfig) : List OutRow :=
  let metrics := detect_metrics fr.cols
  capTier1 cfg.tiers.max_tier1
    (sortRows (fr.rows.filterMap (fun r => evalRowCore cfg metrics (rowPcts fr r) r)))

/-- build_deviation_report: require the identity columns and at least one
    detected metric (ValueError otherwise), then score, sort and cap. -/
def build_deviation_report (fr : Frame) (cfg : DeviationConfig) :
    Except String (List OutRow) :=
  if !(fr.cols.contains "Account Code" && fr.cols.contains "Account Name") then
    .error "Expected columns: Account Code, Account Name"
  else if (detect_metrics fr.cols).isEmpty then
    .error "No metrics detected. Expected Metric_CY_Mean columns."
  else .ok (reportRows fr cfg)


/-! ### Statistical comparator (src/statisticsal_inferences.py)

    Aggregated period series are modelled as lists of exact rationals.  The
    scipy hypothesis tests return transcendental statistic/p-value pairs with
    no exact rational form; the comparator's record shape, skip logic and
    significance thresholding are independent of those values, so the model is
    parametric in the four test functions and the Pearson correlation. -/

/-- Mean of a list (guarded nonempty at every use). -/
def meanQ (l : List ℚ) : ℚ :=
  l.sum / l.length

/-- Sample variance with ddof = 1 (the square of the pandas describe std).
    For fewer than two observations pandas yields NaN where this denominator
    is zero; every use is guarded by nunique > 1, which forces length ≥ 2. -/
def sampleVar (l : List ℚ) : ℚ :=
  (l.map (fun x => (x - meanQ l) ^ 2)).sum / ((l.length : ℚ) - 1)

/-- Series.nunique(): number of distinct values. -/
def nunique (l : List ℚ) : ℕ :=
  (dedupFirst l).length

/-- Ascending sort of a rational list. -/
def sortedQ (l : List ℚ) : List ℚ :=
  pySort (fun a b => decide (a ≤ b)) l

/-- describe min (guarded nonempty). -/
def minQ (l : List ℚ) : ℚ :=
  ((sortedQ l).head?).getD 0

/-- describe max (guarded nonempty). -/
def maxQ (l : List ℚ) : ℚ :=
  ((sortedQ l).getLast?).getD 0

/-- Linear-interpolation quantile (pandas describe 25% / 50% / 75%). -/
def quantileQ (l : List ℚ) (p : ℚ) : ℚ :=
  let s := sortedQ l
  let n := s.length
  if n = 0 then 0
  else
    let h : ℚ := ((n : ℚ) - 1) * p
    let lo := (⌊h⌋).toNat
    let hi := min (lo + 1) (n - 1)
    let a := s.getD lo 0
    let b := s.getD hi 0
    a + (h - ⌊h⌋) * (b - a)

/-- The five scipy calls the comparator makes, abstracted as functions from
    the two period series to a (statistic, p-value) pair. -/
structure HypTests : Type where
  ttest : List ℚ → List ℚ → ℚ × ℚ
  mannwhitney : List ℚ → List ℚ → ℚ × ℚ
  anova : List ℚ → List ℚ → ℚ × ℚ
  ks : List ℚ → List ℚ → ℚ × ℚ
  pearson : List ℚ → List ℚ → ℚ × ℚ

/-- One evaluated metric of the comparison record.  std_diff in the source is
    sqrt(cy_var) - sqrt(ly_var); the record keeps the two sample variances,
    which determine it, to stay within ℚ.  Likewise cohens_dsq holds
    d² = mean_diff² / pooled_var, which together with the sign of mean_diff
    determines Cohen's d = mean_diff / sqrt(pooled_var); none models the NaN
    assigned by the zero-pooled-std fallback. -/
structure MetricRec : Type where
  mean_diff : ℚ
  ly_var : ℚ
  cy_var : ℚ
  min_diff : ℚ
  max_diff : ℚ
  q25_diff : ℚ
  q50_diff : ℚ
  q75_diff : ℚ
  t_stat : ℚ
  t_pval : ℚ
  t_significant : Bool
  u_stat : ℚ
  u_pval : ℚ
  u_significant : Bool
  anova_f_stat : ℚ
  anova_pval : ℚ
  anova_significant : Bool
  ks_stat : ℚ
  ks_pval : ℚ
  ks_significant : Bool
  corr : Option (ℚ × ℚ × Bool × String)
  cohens_dsq : Option ℚ
  effect_size : String

/-- The correlation strength bucketing (lines 143-151). -/
def corr_strength_of (c : ℚ) : String :=
  let a := |c|
  if decide ((0.1 : ℚ) < a) && decide (a < (0.3 : ℚ)) then "weak"
  else if decide ((0.3 : ℚ) < a) && decide (a < (0.5 : ℚ)) then "moderate"
  else if decide ((0.5 : ℚ) < a) then "strong"
  else "none"

/-- The effect-size bucketing (lines 161-169), evaluated on d²: for a real d
    and cutoff c ≥ 0, |d| < c iff d² < c², so the branch structure on abs_cd
    is reproduced exactly on squares. -/
def effect_size_label_sq (dsq : ℚ) : String :=
  if dsq < (0.2 : ℚ) ^ 2 then "small"
  else if dsq < (0.5 : ℚ) ^ 2 then "medium"
  else if (0.8 : ℚ) ^ 2 ≤ dsq then "large"
  else "none"

/-- The evaluated-metric body (lines 71-173): descriptive differences, the
    four hypothesis tests with p < 0.05 significance, Pearson correlation only
    for equal-length series, and Cohen's d with its effect-size label unless
    the pooled standard deviation is zero (pooled_std = sqrt(pooled_var) is
    zero exactly when pooled_var is). -/
def mkMetricRec (T : HypTests) (ly cy : List ℚ) : MetricRec :=
  let md := meanQ cy - meanQ ly
  let tv := T.ttest ly cy
  let uv := T.mannwhitney ly cy
  let fv := T.anova ly cy
  let kv := T.ks ly cy
  let pooledVar := (sampleVar ly + sampleVar cy) / 2
  { mean_diff := md
    ly_var := sampleVar ly
    cy_var := sampleVar cy
    min_diff := minQ cy - minQ ly
    max_diff := maxQ cy - maxQ ly
    q25_diff := quantileQ cy 0.25 - quantileQ ly 0.25
    q50_diff := quantileQ cy 0.5 - quantileQ ly 0.5
    q75_diff := quantileQ cy 0.75 - quantileQ ly 0.75
    t_stat := tv.1
    t_pval := tv.2
    t_significant := decide (tv.2 < (0.05 : ℚ))
    u_stat := uv.1
    u_pval := uv.2
    u_significant := decide (uv.2 < (0.05 : ℚ))
    anova_f_stat := fv.1
    anova_pval := fv.2
    anova_significant := decide (fv.2 < (0.05 : ℚ))
    ks_stat := kv.1
    ks_pval := kv.2
    ks_significant := decide (kv.2 < (0.05 : ℚ))
    corr :=
      if ly.length = cy.length then
        let cp := T.pearson ly cy
        some (cp.1, cp.2, decide (cp.2 < (0.05 : ℚ)), corr_strength_of cp.1)
      else none
    cohens_dsq := if pooledVar ≠ 0 then some (md ^ 2 / pooledVar) else none
    effect_size :=
      if pooledVar ≠ 0 then effect_size_label_sq (md ^ 2 / pooledVar) else "none" }

/-- An aggregated frame: one summed period series per metric column, all
    series sharing the period index. -/
def AggFrame : Type := List (String × List ℚ)

instance : DecidableEq AggFrame := by unfold AggFrame; infer_instance

/-- DataFrame.empty: no columns or no rows. -/
def aggIsEmpty (a : AggFrame) : Bool :=
  a.all (fun e => e.2.isEmpty)

/-- Column access on an aggregated frame.  A column missing from the
    prior-year frame would raise KeyError in Python; in the pipeline both
    frames are built from the same columns_of_interest, and the [] default
    makes the missing-column case skip (nunique 0). -/
def aggGet (a : AggFrame) (c : String) : List ℚ :=
  (a.lookup c).getD []

/-- The per-column body of compare_statistical_inferences (lines 61-178) on
    the two aggregated frames: a column of interest is evaluated — emitting
    descriptive differences, the four tests, optional correlation and the
    effect size — exactly when it exists in the current-year frame and both
    period series hold more than one distinct value; otherwise it is absent
    from the result.  The function is total: a skip never raises. -/
def compareAgg (cols : List String) (T : HypTests) (lyF cyF : AggFrame) :
    List (String × MetricRec) :=
  if aggIsEmpty lyF || aggIsEmpty cyF then []
  else
    cols.filterMap (fun c =>
      if (cyF.lookup c).isSome && decide (1 < nunique (aggGet lyF c)) &&
          decide (1 < nunique (aggGet cyF c)) then
        some (c, mkMetricRec T (aggGet lyF c) (aggGet cyF c))
      else none)

/-! ### Period aggregation (aggregate, statisticsal_inferences.py lines 34-54) -/

/-- A calendar date (year, month 1..12, day 1..31). -/
structure CivilDate : Type where
  year : ℤ
  month : ℕ
  day : ℕ
deriving DecidableEq

/-- Days since the civil epoch 0000-03-01 (the standard civil-from-days
    algorithm with floor division). -/
def daysFromCivil (d : CivilDate) : ℤ :=
  let y : ℤ := d.year - (if d.month ≤ 2 then 1 else 0)
  let mp : ℤ := ((d.month : ℤ) + 9) % 12
  let doy : ℤ := (153 * mp + 2) / 5 + (d.day : ℤ) - 1
  365 * y + Int.fdiv y 4 - Int.fdiv y 100 + Int.fdiv y 400 + doy

/-- The pandas weekly period ordinal: a floor division of the day number by
    seven.  The anchor offset (pandas weeks end on Sunday) shifts every
    ordinal equally and is irrelevant to the claims. -/
def weekOrdinal (d : CivilDate) : ℤ :=
  Int.fdiv (daysFromCivil d + 2) 7

/-- The pandas monthly period ordinal. -/
def monthOrdinal (d : CivilDate) : ℤ :=
  12 * d.year + (d.month : ℤ) - 1

/-- The pandas quarterly period ordinal. -/
def quarterOrdinal (d : CivilDate) : ℤ :=
  4 * d.year + ((d.month : ℤ) - 1) / 3

/-- A groupby key: a period ordinal, or the string key of the bi-weekly path
    (str(week // 2)), which groups and sorts as a string. -/
def PKey : Type := ℤ ⊕ String

instance : DecidableEq PKey := by unfold PKey; infer_instance

/-- Sort order of group keys: ordinals numerically, strings lexicographically
    (one grouping never mixes the two shapes). -/
def pkeyLe : PKey → PKey → Bool
  | .inl a, .inl b => decide (a ≤ b)
  | .inl _, .inr _ => true
  | .inr _, .inl _ => false
  | .inr s, .inr t => strLe s t

/-- A transaction row after load_and_prepare_data: a parsed date plus the
    numeric coercions of the metric columns.  A column absent from `vals`
    models a NaN produced by the coercion; the groupby sum skips NaN. -/
structure RawRow : Type where
  date : CivilDate
  vals : List (String × ℚ)
deriving DecidableEq

/-- The sorted distinct group keys of a batch (groupby sorts its keys). -/
def groupKeys (key : RawRow → PKey) (rows : List RawRow) : List PKey :=
  pySort pkeyLe (dedupFirst (rows.map key))

/-- groupby(Period)[columns_of_interest].sum(): for every column, the per-key
    sums of its non-NaN values, keys in sorted order. -/
def groupedSums (cols : List String) (key : RawRow → PKey) (rows : List RawRow) :
    AggFrame :=
  let ks := groupKeys key rows
  cols.map (fun c =>
    (c, ks.map (fun k =>
      ((rows.filter (fun r => decide (key r = k))).filterMap
        (fun r => r.vals.lookup c)).sum)))

/-- The ValueError message for an unsupported period name. -/
def invalid_period_msg : String :=
  "Invalid period specified. Choose from weekly, bi-weekly, monthly, or quarterly."

/-- aggregate: bucket the rows of one year into period sums.  A None or empty
    frame returns an empty frame before the period name is examined; an
    unsupported period name on a non-empty frame raises ValueError. -/
def aggregate (cols : List String) (df : Option (List RawRow)) (period : String) :
    Except String AggFrame :=
  match df with
  | none => .ok []
  | some rows =>
    if rows.isEmpty then .ok []
    else if period = "weekly" then
      .ok (groupedSums cols (fun r => .inl (weekOrdinal r.date)) rows)
    else if period = "bi-weekly" then
      .ok (groupedSums cols
        (fun r => .inr (toString (Int.fdiv (weekOrdinal r.date) 2))) rows)
    else if period = "monthly" then
      .ok (groupedSums cols (fun r => .inl (monthOrdinal r.date)) rows)
    else if period = "quarterly" then
      .ok (groupedSums cols (fun r => .inl (quarterOrdinal r.date)) rows)
    else .error invalid_period_msg

/-- compare_statistical_inferences: aggregate both years (propagating the
    ValueError of an invalid period), then evaluate every column of interest
    on the two aggregated frames; empty inputs produce empty results. -/
def compare_statistical_inferences (cols : List String) (T : HypTests)
    (lyRaw cyRaw : Option (List RawRow)) (period : String) :
    Except String (List (String × MetricRec)) := do
  let lyF ← aggregate cols lyRaw period
  let cyF ← aggregate cols cyRaw period
  pure (compareAgg cols T lyF cyF)


/-! ### Derived predicates and concrete inputs used by the verification -/

/-- A significance cell holding a plain int or a non-NaN float (numeric-coded
    rather than boolean or recognised string). -/
def NumCodedCell (v : PyVal) : Prop :=
  (∃ n, v = vInt n) ∨ (∃ f, v = vFloat f ∧ f ≠ F.nan)

/-- Every relevant numeric field of metric `m` in row `r` parses to NaN (under
    to_float for the scorer and to_numeric for the percentile columns) and
    every significance flag parses to unknown. -/
def NoEvidenceFor (r : Row) (m : String) : Prop :=
  to_float (rowGet r (m ++ "_LY_Mean")) = F.nan ∧
  to_float (rowGet r (m ++ "_CY_Mean")) = F.nan ∧
  to_float (rowGet r (m ++ "_LY_Std")) = F.nan ∧
  to_float (rowGet r (m ++ "_CY_Std")) = F.nan ∧
  to_float (rowGet r (m ++ "_CY_Median")) = F.nan ∧
  to_float (rowGet r (m ++ "_Mean_Diff")) = F.nan ∧
  to_float (rowGet r (m ++ "_Std_Diff")) = F.nan ∧
  to_float (rowGet r (m ++ "_Cohens_D")) = F.nan ∧
  toNumeric (rowGet r (m ++ "_CY_Mean")) = F.nan ∧
  toNumeric (rowGet r (m ++ "_CY_Std")) = F.nan ∧
  to_bool (rowGet r (m ++ "_TTest_Significant")) = none ∧
  to_bool (rowGet r (m ++ "_MannWhitney_Significant")) = none ∧
  to_bool (rowGet r (m ++ "_KS_Significant")) = none ∧
  to_bool (rowGet r (m ++ "_ANOVA_Significant")) = none

instance (r : Row) (m : String) : Decidable (NoEvidenceFor r m) := by
  unfold NoEvidenceFor; infer_instance

/-- Replace only tiers.tier1_min_score, holding every other field fixed. -/
def setT1Min (c : DeviationConfig) (s : ℤ) : DeviationConfig :=
  { c with tiers := { c.tiers with tier1_min_score := s } }

/-- The evaluated report rows before sorting and the Tier-1 cap. -/
def precapRows (fr : Frame) (cfg : DeviationConfig) : List OutRow :=
  fr.rows.filterMap (fun r => evalRowCore cfg (detect_metrics fr.cols) (rowPcts fr r) r)

/-- Every output column except the tier. -/
def stripTier (o : OutRow) : PyVal × PyVal × String × String × String × ℤ × String :=
  (o.accountCode, o.accountName, o.keyMetricsTriggered, o.metricValues, o.interp,
    o.score, o.dominantMetric)

/-- A trivial instantiation of the abstract hypothesis tests. -/
def trivTests : HypTests :=
  { ttest := fun _ _ => (0, 0), mannwhitney := fun _ _ => (0, 0),
    anova := fun _ _ => (0, 0), ks := fun _ _ => (0, 0),
    pearson := fun _ _ => (0, 0) }

/-- Columns of the concrete example frames. -/
def colsW : List String :=
  [ "Account Code", "Account Name", "Credit_CY_Mean", "Credit_LY_Mean",
    "Credit_TTest_Significant", "Credit_KS_Significant", "Credit_Effect_Size",
    "Credit_Cohens_D" ]

/-- A concrete account row with a significant mean shift, distribution change
    and large effect on Credit (score 14 = 5 + 5 + 4). -/
def rowA : Row :=
  [ ("Account Code", vStr "A"), ("Account Name", vStr "Sales"),
    ("Credit_CY_Mean", vFloat (F.fin 1000)), ("Credit_LY_Mean", vFloat (F.fin 100)),
    ("Credit_TTest_Significant", vBool true), ("Credit_KS_Significant", vBool true),
    ("Credit_Effect_Size", vStr "large"), ("Credit_Cohens_D", vFloat (F.fin 2)) ]

/-- The same evidence under account code B. -/
def rowB : Row :=
  [ ("Account Code", vStr "B"), ("Account Name", vStr "Sales"),
    ("Credit_CY_Mean", vFloat (F.fin 1000)), ("Credit_LY_Mean", vFloat (F.fin 100)),
    ("Credit_TTest_Significant", vBool true), ("Credit_KS_Significant", vBool true),
    ("Credit_Effect_Size", vStr "large"), ("Credit_Cohens_D", vFloat (F.fin 2)) ]

/-- A one-account frame whose single row reaches Tier-1. -/
def frW : Frame := ⟨colsW, [rowA]⟩

/-- Two equally scored Tier-1 accounts, A first. -/
def frAB : Frame := ⟨colsW, [rowA, rowB]⟩

/-- The same batch with the rows swapped. -/
def frBA : Frame := ⟨colsW, [rowB, rowA]⟩

/-- The default configuration with the Tier-1 cap set to 0 (falsy). -/
def cfgZero : DeviationConfig :=
  { tiers := { max_tier1 := 0 } }

/-- The default configuration with a Tier-1 cap of one row. -/
def cfgMax1 : DeviationConfig :=
  { tiers := { max_tier1 := 1 } }

/-- The default configuration with profiles emptied. -/
def cfgNoProfiles : DeviationConfig :=
  { profiles := [] }

/-- A frame holding one completely empty row (every cell missing). -/
def frOneEmptyRow : Frame :=
  ⟨["Account Code", "Account Name", "Credit_CY_Mean"], [([] : List (String × PyVal))]⟩

/-- The same frame with the empty row removed. -/
def frNoRows : Frame :=
  ⟨["Account Code", "Account Name", "Credit_CY_Mean"], []⟩


/-- Whether an optional report row is a Tier-1 row. -/
def isT1Opt : Option OutRow → Bool
  | some o => decide (o.tier = "Tier-1")
  | none => false

/-! ### Helper lemmas -/

theorem dedupFirstGo_subset {α : Type} [DecidableEq α] (seen : List α) (l : List α) :
    ∀ x ∈ dedupFirstGo seen l, x ∈ l := by
  induction l generalizing seen with
  | nil => simp [dedupFirstGo]
  | cons a t ih =>
    intro x hx
    by_cases h : a ∈ seen
    · simp only [dedupFirstGo, if_pos h] at hx
      exact List.mem_cons_of_mem a (ih seen x hx)
    · simp only [dedupFirstGo, if_neg h] at hx
      rcases List.mem_cons.mp hx with h1 | h1
      · exact h1 ▸ List.mem_cons_self a t
      · exact List.mem_cons_of_mem a (ih (a :: seen) x h1)

theorem dedupFirstGo_not_mem_seen {α : Type} [DecidableEq α] (seen : List α)
    (l : List α) : ∀ x ∈ dedupFirstGo seen l, x ∉ seen := by
  induction l generalizing seen with
  | nil => simp [dedupFirstGo]
  | cons a t ih =>
    intro x hx
    by_cases h : a ∈ seen
    · simp only [dedupFirstGo, if_pos h] at hx
      exact ih seen x hx
    · simp only [dedupFirstGo, if_neg h] at hx
      rcases List.mem_cons.mp hx with h1 | h1
      · exact h1 ▸ h
      · intro hs
        exact ih (a :: seen) x h1 (List.mem_cons_of_mem a hs)

theorem dedupFirstGo_nodup {α : Type} [DecidableEq α] (seen : List α) (l : List α) :
    (dedupFirstGo seen l).Nodup := by
  induction l generalizing seen with
  | nil => simp [dedupFirstGo]
  | cons a t ih =>
    by_cases h : a ∈ seen
    · simpa [dedupFirstGo, if_pos h] using ih seen
    · simp only [dedupFirstGo, if_neg h]
      refine List.nodup_cons.mpr ⟨?_, ih (a :: seen)⟩
      intro hmem
      exact dedupFirstGo_not_mem_seen (a :: seen) t a hmem (List.mem_cons_self a seen)

theorem dedupFirstGo_length_le {α : Type} [DecidableEq α] (seen : List α)
    (l : List α) : (dedupFirstGo seen l).length ≤ l.length := by
  induction l generalizing seen with
  | nil => simp [dedupFirstGo]
  | cons a t ih =>
    by_cases h : a ∈ seen
    · simp only [dedupFirstGo, if_pos h]
      exact le_trans (ih seen) (Nat.le_succ _)
    · simp only [dedupFirstGo, if_neg h, List.length_cons]
      exact Nat.succ_le_succ (ih (a :: seen))

theorem one_lt_nunique_exists (l : List ℚ) (h : 1 < nunique l) :
    (∃ a ∈ l, ∃ b ∈ l, a ≠ b) ∧ 1 < l.length := by
  have hlen : 1 < l.length :=
    lt_of_lt_of_le h (dedupFirstGo_length_le [] l)
  unfold nunique dedupFirst at h
  refine ⟨?_, hlen⟩
  match hd : dedupFirstGo ([] : List ℚ) l with
  | [] => rw [hd] at h; simp at h
  | [x] => rw [hd] at h; simp at h
  | x :: y :: t =>
    have hnd := dedupFirstGo_nodup ([] : List ℚ) l
    rw [hd] at hnd
    have hxy : x ≠ y := by
      intro hxy
      exact (List.nodup_cons.mp hnd).1 (hxy ▸ List.mem_cons_self y t)
    have hx : x ∈ l := dedupFirstGo_subset [] l x (hd ▸ List.mem_cons_self x _)
    have hy : y ∈ l := dedupFirstGo_subset [] l y
      (hd ▸ List.mem_cons_of_mem x (List.mem_cons_self y t))
    exact ⟨x, hx, y, hy, hxy⟩

theorem sampleVar_pos (l : List ℚ) (h : 1 < nunique l) : 0 < sampleVar l := by
  obtain ⟨⟨a, ha, b, hb, hab⟩, hlen⟩ := one_lt_nunique_exists l h
  have hc : ∃ c ∈ l, c ≠ meanQ l := by
    by_cases h1 : a = meanQ l
    · exact ⟨b, hb, fun hbm => hab (h1.trans hbm.symm)⟩
    · exact ⟨a, ha, h1⟩
  obtain ⟨c, hcl, hcm⟩ := hc
  have hterm : 0 < (c - meanQ l) ^ 2 := by
    have hne : c - meanQ l ≠ 0 := sub_ne_zero.mpr hcm
    positivity
  have hmem : (c - meanQ l) ^ 2 ∈ l.map (fun x => (x - meanQ l) ^ 2) :=
    List.mem_map_of_mem _ hcl
  have hsum : (c - meanQ l) ^ 2 ≤ (l.map (fun x => (x - meanQ l) ^ 2)).sum := by
    refine List.single_le_sum ?_ _ hmem
    intro x hx
    obtain ⟨y, _, rfl⟩ := List.mem_map.mp hx
    positivity
  have hden : 0 < (l.length : ℚ) - 1 := by
    have : (1 : ℚ) < l.length := by exact_mod_cast hlen
    linarith
  exact div_pos (lt_of_lt_of_le hterm hsum) hden

theorem aggGet_of_isEmpty (a : AggFrame) (c : String) (h : aggIsEmpty a = true) :
    aggGet a c = [] := by
  induction a with
  | nil => rfl
  | cons e t ih =>
    obtain ⟨k, s⟩ := e
    simp only [aggIsEmpty, List.all_cons, Bool.and_eq_true] at h
    have hs : s = [] := by simpa using h.1
    have ht : aggGet t c = [] := ih (by simpa [aggIsEmpty] using h.2)
    simp only [aggGet, List.lookup] at ht ⊢
    cases hck : c == k with
    | true => simp [hck, hs]
    | false => simpa [hck] using ht

theorem nunique_nil : nunique [] = 0 := rfl

/-! ### Claim theorems -/

/-- Claim C9: a significance cell holding a plain int or a non-NaN float is
    parsed by to_bool as unknown (none), so it is never counted as
    affirmatively True, and the Distribution Change / Mean Shift significance
    disjunctions built from two such cells are false. -/
theorem numeric_sig_flags_never_fire (v w : PyVal)
    (hv : NumCodedCell v) (hw : NumCodedCell w) :
    to_bool v = none ∧ isTrueOpt (to_bool v) = false ∧
      (isTrueOpt (to_bool v) || isTrueOpt (to_bool w)) = false := by
  have key : ∀ u, NumCodedCell u → to_bool u = none := by
    rintro u (⟨n, rfl⟩ | ⟨f, rfl, hf⟩)
    · rfl
    · cases f with
      | nan => exact absurd rfl hf
      | inf nn => rfl
      | fin q => rfl
  refine ⟨key v hv, ?_, ?_⟩
  · rw [key v hv]; rfl
  · rw [key v hv, key w hw]; rfl

/-- Claim C9 witness: the flags 1 (int) and 1.0 (float) at concrete inputs. -/
theorem numeric_sig_flags_never_fire_witness :
    to_bool (vInt 1) = none ∧ isTrueOpt (to_bool (vInt 1)) = false ∧
      (isTrueOpt (to_bool (vInt 1)) || isTrueOpt (to_bool (vFloat (F.fin 1)))) = false :=
  numeric_sig_flags_never_fire (vInt 1) (vFloat (F.fin 1))
    (Or.inl ⟨1, rfl⟩) (Or.inr ⟨F.fin 1, rfl, by simp⟩)

/-- Claim C8 counterexample: called on an empty frame with the unsupported
    period name "daily", the aggregation returns an empty frame instead of
    raising ValueError — the period name is never examined. -/
theorem aggregate_empty_frame_skips_validation :
    aggregate ["Credit"] (some []) "daily" = Except.ok ([] : AggFrame) ∧
      ("daily" ≠ "weekly" ∧ "daily" ≠ "bi-weekly" ∧ "daily" ≠ "monthly" ∧
        "daily" ≠ "quarterly") :=
  ⟨rfl, by decide⟩

/-- Claim C8 (amended): on a non-empty frame, an unsupported period name
    raises ValueError with the fixed invalid-period message; a missing or
    empty frame returns an empty result without validating the period. -/
theorem aggregate_invalid_period_raises (cols : List String) (rows : List RawRow)
    (period : String) (hne : rows ≠ [])
    (h1 : period ≠ "weekly") (h2 : period ≠ "bi-weekly")
    (h3 : period ≠ "monthly") (h4 : period ≠ "quarterly") :
    aggregate cols (some rows) period = Except.error invalid_period_msg := by
  have h0 : rows.isEmpty = false := by
    cases rows with
    | nil => exact absurd rfl hne
    | cons a t => rfl
  simp only [aggregate, h0, Bool.false_eq_true, if_false, if_neg h1, if_neg h2,
    if_neg h3, if_neg h4]

/-- Claim C8 witness: a one-row frame with period "daily" raises. -/
theorem aggregate_invalid_period_raises_witness :
    aggregate ["Credit"] (some [⟨⟨2024, 1, 1⟩, []⟩]) "daily" =
      Except.error invalid_period_msg :=
  aggregate_invalid_period_raises ["Credit"] [⟨⟨2024, 1, 1⟩, []⟩] "daily"
    (by simp) (by decide) (by decide) (by decide) (by decide)


/-- Claim C4: the Comparator labels the effect size small when |d| < 0.2,
    medium when 0.2 ≤ |d| < 0.5, large when |d| ≥ 0.8 and none on the gap
    0.5 ≤ |d| < 0.8, where Cohen's d = mean difference / sqrt(pooled variance)
    and the pooled variance is the mean of the two years' variances (so the
    pooled standard deviation is their root mean square); the model evaluates
    the label on d² = md²/pv, and for every evaluated metric with nonzero
    pooled variance the record's label is exactly that evaluation. -/
theorem effect_size_brackets (md pv : ℚ) (hpv : 0 < pv) :
    (|(md : ℝ)| / Real.sqrt (pv : ℝ) < 0.2 →
        effect_size_label_sq (md ^ 2 / pv) = "small") ∧
    (0.2 ≤ |(md : ℝ)| / Real.sqrt (pv : ℝ) →
        |(md : ℝ)| / Real.sqrt (pv : ℝ) < 0.5 →
        effect_size_label_sq (md ^ 2 / pv) = "medium") ∧
    (0.8 ≤ |(md : ℝ)| / Real.sqrt (pv : ℝ) →
        effect_size_label_sq (md ^ 2 / pv) = "large") ∧
    (0.5 ≤ |(md : ℝ)| / Real.sqrt (pv : ℝ) →
        |(md : ℝ)| / Real.sqrt (pv : ℝ) < 0.8 →
        effect_size_label_sq (md ^ 2 / pv) = "none") ∧
    (∀ (T : HypTests) (ly cy : List ℚ),
        (sampleVar ly + sampleVar cy) / 2 ≠ 0 →
        (mkMetricRec T ly cy).effect_size =
          effect_size_label_sq
            ((mkMetricRec T ly cy).mean_diff ^ 2 / ((sampleVar ly + sampleVar cy) / 2))) := by
  have hpv' : (0 : ℝ) < (pv : ℝ) := by exact_mod_cast hpv
  have hx0 : 0 ≤ |(md : ℝ)| / Real.sqrt (pv : ℝ) :=
    div_nonneg (abs_nonneg _) (Real.sqrt_nonneg _)
  have hsq : ((md ^ 2 / pv : ℚ) : ℝ) = (|(md : ℝ)| / Real.sqrt (pv : ℝ)) ^ 2 := by
    rw [div_pow, sq_abs, Real.sq_sqrt hpv'.le]
    push_cast
    ring
  have key_lt : ∀ c : ℚ, 0 ≤ c →
      (|(md : ℝ)| / Real.sqrt (pv : ℝ) < (c : ℝ) ↔ md ^ 2 / pv < c ^ 2) := by
    intro c hc
    have hc' : (0 : ℝ) ≤ (c : ℝ) := by exact_mod_cast hc
    constructor
    · intro h
      have h2 : (|(md : ℝ)| / Real.sqrt (pv : ℝ)) ^ 2 < (c : ℝ) ^ 2 := by nlinarith
      rw [← hsq] at h2
      exact_mod_cast h2
    · intro h
      have h2 : ((md ^ 2 / pv : ℚ) : ℝ) < ((c : ℚ) : ℝ) ^ 2 := by exact_mod_cast h
      rw [hsq] at h2
      nlinarith [hx0, hc']
  have key_le : ∀ c : ℚ, 0 ≤ c →
      ((c : ℝ) ≤ |(md : ℝ)| / Real.sqrt (pv : ℝ) ↔ c ^ 2 ≤ md ^ 2 / pv) := by
    intro c hc
    have hc' : (0 : ℝ) ≤ (c : ℝ) := by exact_mod_cast hc
    constructor
    · intro h
      have h2 : (c : ℝ) ^ 2 ≤ (|(md : ℝ)| / Real.sqrt (pv : ℝ)) ^ 2 := by nlinarith
      rw [← hsq] at h2
      exact_mod_cast h2
    · intro h
      have h2 : ((c : ℚ) : ℝ) ^ 2 ≤ ((md ^ 2 / pv : ℚ) : ℝ) := by exact_mod_cast h
      rw [hsq] at h2
      nlinarith
  refine ⟨?_, ?_, ?_, ?_, ?_⟩
  · intro h
    have h1 : md ^ 2 / pv < (0.2 : ℚ) ^ 2 :=
      (key_lt 0.2 (by norm_num)).mp (by exact_mod_cast h)
    simp only [effect_size_label_sq, if_pos h1]
  · intro ha hb
    have h1 : (0.2 : ℚ) ^ 2 ≤ md ^ 2 / pv :=
      (key_le 0.2 (by norm_num)).mp (by exact_mod_cast ha)
    have h2 : md ^ 2 / pv < (0.5 : ℚ) ^ 2 :=
      (key_lt 0.5 (by norm_num)).mp (by exact_mod_cast hb)
    simp only [effect_size_label_sq, if_neg (not_lt.mpr h1), if_pos h2]
  · intro h
    have h1 : (0.8 : ℚ) ^ 2 ≤ md ^ 2 / pv :=
      (key_le 0.8 (by norm_num)).mp (by exact_mod_cast h)
    have h2 : ¬ md ^ 2 / pv < (0.2 : ℚ) ^ 2 := by
      rw [not_lt]
      calc (0.2 : ℚ) ^ 2 ≤ (0.8 : ℚ) ^ 2 := by norm_num
        _ ≤ md ^ 2 / pv := h1
    have h3 : ¬ md ^ 2 / pv < (0.5 : ℚ) ^ 2 := by
      rw [not_lt]
      calc (0.5 : ℚ) ^ 2 ≤ (0.8 : ℚ) ^ 2 := by norm_num
        _ ≤ md ^ 2 / pv := h1
    simp only [effect_size_label_sq, if_neg h2, if_neg h3, if_pos h1]
  · intro ha hb
    have h1 : (0.5 : ℚ) ^ 2 ≤ md ^ 2 / pv :=
      (key_le 0.5 (by norm_num)).mp (by exact_mod_cast ha)
    have h2 : md ^ 2 / pv < (0.8 : ℚ) ^ 2 :=
      (key_lt 0.8 (by norm_num)).mp (by exact_mod_cast hb)
    have h3 : ¬ md ^ 2 / pv < (0.2 : ℚ) ^ 2 := by
      rw [not_lt]
      calc (0.2 : ℚ) ^ 2 ≤ (0.5 : ℚ) ^ 2 := by norm_num
        _ ≤ md ^ 2 / pv := h1
    have h4 : ¬ md ^ 2 / pv < (0.5 : ℚ) ^ 2 := not_lt.mpr h1
    have h5 : ¬ (0.8 : ℚ) ^ 2 ≤ md ^ 2 / pv := not_le.mpr h2
    simp only [effect_size_label_sq, if_neg h3, if_neg h4, if_neg h5]
  · intro T ly cy hne
    simp [mkMetricRec, hne]

/-- Claim C4 witness: at mean difference 0 and pooled variance 1, |d| = 0 is
    below 0.2 and the label is small. -/
theorem effect_size_brackets_witness :
    effect_size_label_sq ((0 : ℚ) ^ 2 / 1) = "small" :=
  (effect_size_brackets 0 1 (by norm_num)).1
    (by simp [Real.sqrt_one]; norm_num)

/-- Claim C5: for every pair of aggregated period frames, every abstract test
    battery and every column, the Statistical Comparator emits a record for
    the column (descriptive differences, the four hypothesis tests and effect
    size) exactly when the column is tracked and both years' period series
    contain more than one distinct value; otherwise the column is absent.  The
    comparison is a total function, so a skip never raises. -/
theorem metric_evaluated_iff (cols : List String) (T : HypTests)
    (lyF cyF : AggFrame) (c : String) :
    (∃ rec, (c, rec) ∈ compareAgg cols T lyF cyF) ↔
      c ∈ cols ∧ 1 < nunique (aggGet lyF c) ∧ 1 < nunique (aggGet cyF c) := by
  unfold compareAgg
  by_cases he : (aggIsEmpty lyF || aggIsEmpty cyF) = true
  · rw [if_pos he]
    simp only [List.not_mem_nil, exists_false, false_iff]
    rintro ⟨hc, h1, h2⟩
    rcases Bool.or_eq_true _ _ |>.mp he with h | h
    · rw [aggGet_of_isEmpty lyF c h] at h1
      simp [nunique_nil] at h1
    · rw [aggGet_of_isEmpty cyF c h] at h2
      simp [nunique_nil] at h2
  · rw [if_neg he]
    constructor
    · rintro ⟨rec, hmem⟩
      rw [List.mem_filterMap] at hmem
      obtain ⟨c', hc', hf⟩ := hmem
      by_cases hcond : ((cyF.lookup c').isSome &&
          decide (1 < nunique (aggGet lyF c')) &&
          decide (1 < nunique (aggGet cyF c'))) = true
      · rw [if_pos hcond] at hf
        obtain ⟨hc1, hc2⟩ := Prod.mk.injEq _ _ _ _ ▸ Option.some.injEq _ _ ▸ hf
        subst hc1
        simp only [Bool.and_eq_true, decide_eq_true_eq] at hcond
        exact ⟨hc', hcond.1.2, hcond.2⟩
      · rw [if_neg hcond] at hf
        exact absurd hf (by simp)
    · rintro ⟨hc, h1, h2⟩
      refine ⟨mkMetricRec T (aggGet lyF c) (aggGet cyF c), ?_⟩
      rw [List.mem_filterMap]
      refine ⟨c, hc, ?_⟩
      have hsome : (cyF.lookup c).isSome = true := by
        cases hl : cyF.lookup c with
        | none =>
          rw [show aggGet cyF c = [] from by simp [aggGet, hl]] at h2
          simp [nunique_nil] at h2
        | some s => rfl
      rw [if_pos (by simp [hsome, h1, h2])]

/-- Claim C10: under the Comparator's evaluation guard (both series hold more
    than one distinct value) each year's sample variance — hence its sample
    standard deviation — is strictly positive, the pooled variance is nonzero,
    the zero-pooled-std fallback (cohens_d = NaN) never executes, and the
    record carries a Cohen's d value (as d²) and one of the four effect-size
    labels. -/
theorem zero_pooled_std_fallback_unreachable (T : HypTests) (ly cy : List ℚ)
    (hly : 1 < nunique ly) (hcy : 1 < nunique cy) :
    0 < sampleVar ly ∧ 0 < sampleVar cy ∧
      (sampleVar ly + sampleVar cy) / 2 ≠ 0 ∧
      (mkMetricRec T ly cy).cohens_dsq =
        some ((meanQ cy - meanQ ly) ^ 2 / ((sampleVar ly + sampleVar cy) / 2)) ∧
      (mkMetricRec T ly cy).effect_size =
        effect_size_label_sq
          ((meanQ cy - meanQ ly) ^ 2 / ((sampleVar ly + sampleVar cy) / 2)) ∧
      (mkMetricRec T ly cy).effect_size ∈ ["small", "medium", "large", "none"] := by
  have h1 := sampleVar_pos ly hly
  have h2 := sampleVar_pos cy hcy
  have hne : (sampleVar ly + sampleVar cy) / 2 ≠ 0 := by positivity
  have hmem : ∀ q : ℚ, effect_size_label_sq q ∈ ["small", "medium", "large", "none"] := by
    intro q
    unfold effect_size_label_sq
    split_ifs <;> simp
  refine ⟨h1, h2, hne, ?_, ?_, ?_⟩
  · simp [mkMetricRec, hne]
  · simp [mkMetricRec, hne]
  · simp only [mkMetricRec]
    rw [if_pos hne]
    exact hmem _

/-- Claim C10 witness: the concrete series [0, 1] and [0, 2] with trivial
    tests have positive variances and a present Cohen's d. -/
theorem zero_pooled_std_fallback_unreachable_witness :
    0 < sampleVar [(0 : ℚ), 1] ∧
      (mkMetricRec trivTests [(0 : ℚ), 1] [(0 : ℚ), 2]).cohens_dsq ≠ none := by
  have h := zero_pooled_std_fallback_unreachable trivTests [(0 : ℚ), 1] [(0 : ℚ), 2]
    (by with_unfolding_all decide) (by with_unfolding_all decide)
  refine ⟨h.1, ?_⟩
  rw [h.2.2.2.1]
  simp


/-! ### Lemmas for the no-evidence invariant -/

theorem evalMetric_no_evidence (sc : ScorerCfg) (pcts : Option ℚ × Option ℚ)
    (r : Row) (m : String) (h : NoEvidenceFor r m) :
    (evalMetric sc pcts r m).score = 0 ∧ (evalMetric sc pcts r m).trig = [] := by
  obtain ⟨e1, e2, e3, e4, e5, e6, e7, e8, _e9, _e10, e11, e12, e13, e14⟩ := h
  simp only [evalMetric, e1, e2, e3, e4, e5, e6, e7, e8, e11, e12, e13, e14]
  simp [isTrueOpt, F.isNan, F.fge, F.flt, F.fgt, F.fgtF, dedupFirst, dedupFirstGo]

theorem evalRowPre_no_evidence (sc : ScorerCfg) (dropThr : ℚ)
    (reqTrig : List String) (lang : Language) (metrics : List String)
    (pct : String → Option ℚ × Option ℚ) (r : Row)
    (h : ∀ m ∈ metrics, NoEvidenceFor r m) :
    evalRowPre sc dropThr reqTrig lang metrics pct r = none := by
  have hall : (metrics.map (fun m => (m, pct m, evalMetric sc (pct m) r m))).filter
      (fun e => decide (0 < e.2.2.score)) = [] := by
    rw [List.filter_eq_nil_iff]
    intro e he
    obtain ⟨m, hm, rfl⟩ := List.mem_map.mp he
    have hz := (evalMetric_no_evidence sc (pct m) r m (h m hm)).1
    simp [hz]
  simp only [evalRowPre]
  rw [hall]
  rfl

theorem evalRowCore_no_evidence (cfg : DeviationConfig) (metrics : List String)
    (pct : String → Option ℚ × Option ℚ) (r : Row)
    (h : ∀ m ∈ metrics, NoEvidenceFor r m) :
    evalRowCore cfg metrics pct r = none := by
  unfold evalRowCore
  rw [evalRowPre_no_evidence _ _ _ _ _ _ _ h]
  rfl

theorem pctRankAbs_middle_nan (l1 l2 : List F) (x : F) (hx : absNum x = none)
    (v : F) : pctRankAbs (l1 ++ x :: l2) v = pctRankAbs (l1 ++ l2) v := by
  have hfm : (l1 ++ x :: l2).filterMap absNum = (l1 ++ l2).filterMap absNum := by
    rw [List.filterMap_append, List.filterMap_append, List.filterMap_cons_none hx]
  unfold pctRankAbs
  rw [hfm]

theorem colPct_middle_nan (cols : List String) (pre post : List Row) (x : Row)
    (c : String) (hx : toNumeric (rowGet x c) = F.nan) (r : Row) :
    colPct ⟨cols, pre ++ x :: post⟩ r c = colPct ⟨cols, pre ++ post⟩ r c := by
  unfold colPct colVals
  by_cases hcc : cols.contains c
  · simp only [hcc, if_pos]
    rw [List.map_append, List.map_cons, List.map_append]
    exact pctRankAbs_middle_nan _ _ _ (by rw [hx]; rfl) _
  · simp only [hcc]
    rfl

theorem evalRowPre_pct_congr (sc : ScorerCfg) (dropThr : ℚ)
    (reqTrig : List String) (lang : Language) (metrics : List String)
    (pct1 pct2 : String → Option ℚ × Option ℚ) (r : Row)
    (h : ∀ m ∈ metrics, pct1 m = pct2 m) :
    evalRowPre sc dropThr reqTrig lang metrics pct1 r =
      evalRowPre sc dropThr reqTrig lang metrics pct2 r := by
  have hevs : metrics.map (fun m => (m, pct1 m, evalMetric sc (pct1 m) r m)) =
      metrics.map (fun m => (m, pct2 m, evalMetric sc (pct2 m) r m)) := by
    apply List.map_congr_left
    intro m hm
    rw [h m hm]
  simp only [evalRowPre]
  rw [hevs]

theorem evalRowCore_pct_congr (cfg : DeviationConfig) (metrics : List String)
    (pct1 pct2 : String → Option ℚ × Option ℚ) (r : Row)
    (h : ∀ m ∈ metrics, pct1 m = pct2 m) :
    evalRowCore cfg metrics pct1 r = evalRowCore cfg metrics pct2 r := by
  unfold evalRowCore
  rw [evalRowPre_pct_congr _ _ _ _ _ _ _ _ h]

/-- Claim C1: for an account row in which every relevant numeric field parses
    to NaN and every significance flag parses to unknown, (a) every metric's
    score is 0 with no fired trigger — no check fires from invalid fields
    alone, whatever materiality percentiles the rest of the batch induces —
    (b) the account is dropped before tiering, and (c) the whole report equals
    the report of the same batch without that row. -/
theorem no_evidence_account_invisible (cols : List String) (pre post : List Row)
    (x : Row) (cfg : DeviationConfig)
    (h : ∀ m ∈ detect_metrics cols, NoEvidenceFor x m) :
    (∀ (sc : ScorerCfg) (pcts : Option ℚ × Option ℚ) (m : String),
        m ∈ detect_metrics cols →
        (evalMetric sc pcts x m).score = 0 ∧ (evalMetric sc pcts x m).trig = []) ∧
    (∀ pct, evalRowCore cfg (detect_metrics cols) pct x = none) ∧
    build_deviation_report ⟨cols, pre ++ x :: post⟩ cfg =
      build_deviation_report ⟨cols, pre ++ post⟩ cfg := by
  refine ⟨fun sc pcts m hm => evalMetric_no_evidence sc pcts x m (h m hm),
    fun pct => evalRowCore_no_evidence cfg _ pct x h, ?_⟩
  have hrr : reportRows ⟨cols, pre ++ x :: post⟩ cfg =
      reportRows ⟨cols, pre ++ post⟩ cfg := by
    unfold reportRows
    show capTier1 _ (sortRows ((pre ++ x :: post).filterMap
        (fun r => evalRowCore cfg (detect_metrics cols) (rowPcts ⟨cols, pre ++ x :: post⟩ r) r))) =
      capTier1 _ (sortRows ((pre ++ post).filterMap
        (fun r => evalRowCore cfg (detect_metrics cols) (rowPcts ⟨cols, pre ++ post⟩ r) r)))
    have hf : ∀ r, evalRowCore cfg (detect_metrics cols)
        (rowPcts ⟨cols, pre ++ x :: post⟩ r) r =
        evalRowCore cfg (detect_metrics cols) (rowPcts ⟨cols, pre ++ post⟩ r) r := by
      intro r
      apply evalRowCore_pct_congr
      intro m hm
      obtain ⟨_, _, _, _, _, _, _, _, e9, e10, _, _, _, _⟩ := h m hm
      unfold rowPcts
      rw [colPct_middle_nan cols pre post x _ e9 r,
        colPct_middle_nan cols pre post x _ e10 r]
    have hfx : evalRowCore cfg (detect_metrics cols)
        (rowPcts ⟨cols, pre ++ post⟩ x) x = none :=
      evalRowCore_no_evidence cfg _ _ x h
    rw [show ((pre ++ x :: post).filterMap
        (fun r => evalRowCore cfg (detect_metrics cols) (rowPcts ⟨cols, pre ++ x :: post⟩ r) r)) =
        ((pre ++ x :: post).filterMap
        (fun r => evalRowCore cfg (detect_metrics cols) (rowPcts ⟨cols, pre ++ post⟩ r) r))
      from List.filterMap_congr (fun r _ => hf r)]
    rw [List.filterMap_append, List.filterMap_append,
      @List.filterMap_cons_none _ _
        (fun r => evalRowCore cfg (detect_metrics cols)
          (rowPcts ⟨cols, pre ++ post⟩ r) r) x post hfx]
  unfold build_deviation_report
  by_cases h1 : (cols.contains "Account Code" && cols.contains "Account Name") = true
  · by_cases h2 : (detect_metrics cols).isEmpty
    · simp only [h1, h2]
      rfl
    · simp only [h1, h2]
      rw [hrr]
  · simp only [h1]
    rfl

/-- Claim C1 witness: a batch holding one completely empty row produces the
    same (empty) report as the batch without it. -/
theorem no_evidence_account_invisible_witness :
    build_deviation_report frOneEmptyRow ({} : DeviationConfig) =
      build_deviation_report frNoRows ({} : DeviationConfig) :=
  (no_evidence_account_invisible
      ["Account Code", "Account Name", "Credit_CY_Mean"] [] []
      ([] : List (String × PyVal)) ({} : DeviationConfig)
      (by with_unfolding_all decide)).2.2


/-! ### Lemmas for the Tier-1 cap -/

theorem reportRows_eq (fr : Frame) (cfg : DeviationConfig) :
    reportRows fr cfg =
      capTier1 cfg.tiers.max_tier1 (sortRows (precapRows fr cfg)) := rfl

theorem countT1_demoteGo (start : ℕ) (l : List OutRow) (seen : ℕ) :
    countT1 (demoteGo start l seen) = min (start - seen) (countT1 l) := by
  induction l generalizing seen with
  | nil => simp [demoteGo, countT1]
  | cons o rest ih =>
    unfold demoteGo
    by_cases h : o.tier = "Tier-1"
    · rw [if_pos h]
      by_cases hs : start ≤ seen
      · rw [if_pos hs]
        have h1 : countT1 (({ o with tier := "Tier-2" } : OutRow) ::
            demoteGo start rest (seen + 1)) = countT1 (demoteGo start rest (seen + 1)) := by
          unfold countT1
          rw [List.countP_cons]
          simp
        have h2 : countT1 (o :: rest) = countT1 rest + 1 := by
          unfold countT1
          rw [List.countP_cons]
          simp [h]
        rw [h1, ih (seen + 1), h2]
        omega
      · rw [if_neg hs]
        have h1 : countT1 (o :: demoteGo start rest (seen + 1)) =
            countT1 (demoteGo start rest (seen + 1)) + 1 := by
          unfold countT1
          rw [List.countP_cons]
          simp [h]
        have h2 : countT1 (o :: rest) = countT1 rest + 1 := by
          unfold countT1
          rw [List.countP_cons]
          simp [h]
        rw [h1, ih (seen + 1), h2]
        omega
    · rw [if_neg h]
      have h1 : countT1 (o :: demoteGo start rest seen) =
          countT1 (demoteGo start rest seen) := by
        unfold countT1
        rw [List.countP_cons]
        simp [h]
      have h2 : countT1 (o :: rest) = countT1 rest := by
        unfold countT1
        rw [List.countP_cons]
        simp [h]
      rw [h1, ih seen, h2]

theorem countT1_sortRows (l : List OutRow) : countT1 (sortRows l) = countT1 l :=
  (pySort_perm outLe l).countP_eq _

theorem countT1_capTier1 (k : ℤ) (l : List OutRow) :
    countT1 (capTier1 k l) =
      if k ≠ 0 ∧ k < (countT1 l : ℤ) then
        min (sliceStartNat k (countT1 l)) (countT1 l)
      else countT1 l := by
  unfold capTier1
  by_cases hp : k ≠ 0 ∧ k < (countT1 l : ℤ)
  · rw [if_pos (by simpa [Bool.and_eq_true, decide_eq_true_eq] using hp), if_pos hp,
      countT1_sortRows, countT1_demoteGo]
    simp
  · rw [if_neg (by simpa [Bool.and_eq_true, decide_eq_true_eq] using hp), if_neg hp]

set_option maxRecDepth 10000 in
/-- Claim C2 counterexample: with max_tier1 = 0 (a falsy cap) and a batch with
    one Tier-1 account, the report holds one Tier-1 row, exceeding the cap of
    zero — the cap branch is skipped for a falsy max_tier1. -/
theorem tier1_cap_zero_not_enforced :
    cfgZero.tiers.max_tier1 = 0 ∧
      (build_deviation_report frW cfgZero).toOption.map
        (fun l => l.map (fun o => o.tier)) = some ["Tier-1"] := by
  constructor
  · rfl
  · with_unfolding_all decide

/-- Claim C2 (amended): for every batch and every configuration whose
    max_tier1 is positive, the number of Tier-1 rows in the returned report
    never exceeds max_tier1 (overflow beyond the slice start is demoted to
    Tier-2 and the report re-sorted); a zero max_tier1 is falsy and disables
    the cap. -/
theorem tier1_cap_enforced (fr : Frame) (cfg : DeviationConfig)
    (out : List OutRow) (hk : 0 < cfg.tiers.max_tier1)
    (hout : build_deviation_report fr cfg = Except.ok out) :
    (countT1 out : ℤ) ≤ cfg.tiers.max_tier1 := by
  simp only [build_deviation_report] at hout
  split at hout
  · simp at hout
  · split at hout
    · simp at hout
    · have hro : reportRows fr cfg = out := by
        simpa using hout
      subst hro
      rw [reportRows_eq, countT1_capTier1]
      split_ifs with hcond
      · obtain ⟨-, hlt⟩ := hcond
        unfold sliceStartNat
        rw [if_pos hk.le]
        omega
      · rw [not_and_or] at hcond
        rcases hcond with hc | hc
        · exact absurd (by omega : cfg.tiers.max_tier1 ≠ 0) (by simpa using hc)
        · omega

/-- Claim C2 witness: the default cap of 10 bounds the single-Tier-1 report. -/
theorem tier1_cap_enforced_witness :
    (countT1 (reportRows frW ({} : DeviationConfig)) : ℤ) ≤
      ({} : DeviationConfig).tiers.max_tier1 :=
  tier1_cap_enforced frW {} (reportRows frW {}) (by decide) rfl


/-! ### Lemmas for monotone tiering -/

theorem isT1Opt_eq (o : Option OutRow) :
    (Option.map (fun x => decide (x.tier = "Tier-1")) o).getD false = isT1Opt o := by
  cases o <;> rfl

theorem build_ok_elim (fr : Frame) (cfg : DeviationConfig) (out : List OutRow)
    (h : build_deviation_report fr cfg = Except.ok out) :
    out = reportRows fr cfg := by
  simp only [build_deviation_report] at h
  split at h
  · simp at h
  · split at h
    · simp at h
    · simpa using h.symm

theorem tierOf_t1_antitone (t : Tiering) (s s' : ℤ) (hss : s ≤ s')
    (total : ℤ) (mx : Option ℚ)
    (h : tierOf { t with tier1_min_score := s' } total mx = some "Tier-1") :
    tierOf { t with tier1_min_score := s } total mx = some "Tier-1" := by
  obtain ⟨t1, t2, t3, ti3, mt1, tmp, tov, tdp, trq⟩ := t
  simp only [tierOf] at h ⊢
  by_cases hc : (decide (s' ≤ total) && (pct_ok mx tmp || decide (tov ≤ total))) = true
  · rw [if_pos hc] at h
    simp only [Bool.and_eq_true, decide_eq_true_eq] at hc
    have hc2 : (decide (s ≤ total) && (pct_ok mx tmp || decide (tov ≤ total))) = true := by
      simp only [Bool.and_eq_true, decide_eq_true_eq]
      exact ⟨le_trans hss hc.1, hc.2⟩
    rw [if_pos hc2]
  · rw [if_neg hc] at h
    split_ifs at h <;> simp_all

theorem isT1_evalRowCore_antitone (cfg : DeviationConfig) (s' : ℤ)
    (hs : cfg.tiers.tier1_min_score ≤ s') (metrics : List String)
    (pct : String → Option ℚ × Option ℚ) (r : Row)
    (h : isT1Opt (evalRowCore (setT1Min cfg s') metrics pct r) = true) :
    isT1Opt (evalRowCore cfg metrics pct r) = true := by
  rw [show evalRowCore (setT1Min cfg s') metrics pct r =
      (evalRowPre cfg.scorer cfg.tiers.drop_pure_volatility_below_mean_pct
        cfg.tiers.require_any_of_triggers cfg.language metrics pct r).bind
      (fun p => (tierOf (setT1Min cfg s').tiers p.total p.maxMeanPct).map
        (fun tier => mkOutRow tier p)) from rfl] at h
  unfold evalRowCore
  cases hp : evalRowPre cfg.scorer cfg.tiers.drop_pure_volatility_below_mean_pct
      cfg.tiers.require_any_of_triggers cfg.language metrics pct r with
  | none =>
    rw [hp] at h
    simp [isT1Opt] at h
  | some p =>
    rw [hp] at h
    simp only [Option.some_bind] at h ⊢
    cases ht : tierOf (setT1Min cfg s').tiers p.total p.maxMeanPct with
    | none => rw [ht] at h; simp [isT1Opt] at h
    | some tier =>
      rw [ht] at h
      have htier : tier = "Tier-1" := by simpa [isT1Opt, mkOutRow] using h
      subst htier
      have hlow : tierOf cfg.tiers p.total p.maxMeanPct = some "Tier-1" :=
        tierOf_t1_antitone cfg.tiers cfg.tiers.tier1_min_score s' hs p.total
          p.maxMeanPct ht
      rw [hlow]
      simp [isT1Opt, mkOutRow]

theorem countT1_precap_antitone (fr : Frame) (cfg : DeviationConfig) (s' : ℤ)
    (hs : cfg.tiers.tier1_min_score ≤ s') :
    countT1 (precapRows fr (setT1Min cfg s')) ≤ countT1 (precapRows fr cfg) := by
  unfold precapRows countT1
  rw [List.countP_filterMap, List.countP_filterMap]
  apply List.countP_mono_left
  intro r _ h
  rw [isT1Opt_eq] at h ⊢
  exact isT1_evalRowCore_antitone cfg s' hs _ _ r h

/-- Claim C6: holding the batch and every other configuration field fixed,
    raising tier1_min_score never increases the number of Tier-1 rows in the
    returned report (the Tier-1 set shrinks weakly, before and after the cap). -/
theorem tier1_min_score_monotone (fr : Frame) (cfg : DeviationConfig) (s' : ℤ)
    (hs : cfg.tiers.tier1_min_score ≤ s') (out out' : List OutRow)
    (hout : build_deviation_report fr cfg = Except.ok out)
    (hout' : build_deviation_report fr (setT1Min cfg s') = Except.ok out') :
    countT1 out' ≤ countT1 out := by
  have h1 := build_ok_elim fr cfg out hout
  have h2 := build_ok_elim fr (setT1Min cfg s') out' hout'
  subst h1
  subst h2
  rw [reportRows_eq, reportRows_eq,
    show (setT1Min cfg s').tiers.max_tier1 = cfg.tiers.max_tier1 from rfl,
    countT1_capTier1, countT1_capTier1, countT1_sortRows, countT1_sortRows]
  have hc : countT1 (precapRows fr (setT1Min cfg s')) ≤ countT1 (precapRows fr cfg) :=
    countT1_precap_antitone fr cfg s' hs
  unfold sliceStartNat
  split_ifs <;> omega

/-- Claim C6 witness: raising the default Tier-1 cutoff from 14 to 15 on the
    one-account batch. -/
theorem tier1_min_score_monotone_witness :
    countT1 (reportRows frW (setT1Min ({} : DeviationConfig) 15)) ≤
      countT1 (reportRows frW ({} : DeviationConfig)) :=
  tier1_min_score_monotone frW {} 15 (by decide)
    (reportRows frW {}) (reportRows frW (setT1Min {} 15)) rfl rfl


/-! ### Lemmas for batch-order invariance -/

theorem pctRankAbs_perm {l1 l2 : List F} (h : l1.Perm l2) (v : F) :
    pctRankAbs l1 v = pctRankAbs l2 v := by
  cases hv : absNum v with
  | none => simp [pctRankAbs, hv]
  | some a =>
    have hfm : (l1.filterMap absNum).Perm (l2.filterMap absNum) := h.filterMap absNum
    have hlen := hfm.length_eq
    have hc1 := hfm.countP_eq (fun u => decide (u < a))
    have hc2 := hfm.countP_eq (fun u => decide (u = a))
    by_cases he : l1.filterMap absNum = []
    · have he2 : (l2.filterMap absNum).length = 0 := by
        rw [← hlen, he]
        rfl
      have he2' : l2.filterMap absNum = [] := List.length_eq_zero.mp he2
      simp [pctRankAbs, hv, he, he2']
    · have he2 : l2.filterMap absNum ≠ [] := by
        intro hnil
        apply he
        apply List.length_eq_zero.mp
        rw [hlen, hnil]
        rfl
      simp only [pctRankAbs, hv]
      rw [if_neg (by simp only [List.isEmpty_iff]; exact he),
        if_neg (by simp only [List.isEmpty_iff]; exact he2), hc1, hc2, hlen]

theorem colPct_perm (fr1 fr2 : Frame) (hc : fr2.cols = fr1.cols)
    (hp : fr2.rows.Perm fr1.rows) (r : Row) (c : String) :
    colPct fr2 r c = colPct fr1 r c := by
  unfold colPct colVals
  rw [hc]
  by_cases hcc : fr1.cols.contains c
  · rw [if_pos hcc, if_pos hcc]
    exact pctRankAbs_perm (hp.map _) _
  · rw [if_neg hcc, if_neg hcc]

theorem rowPcts_perm (fr1 fr2 : Frame) (hc : fr2.cols = fr1.cols)
    (hp : fr2.rows.Perm fr1.rows) (r : Row) (m : String) :
    rowPcts fr2 r m = rowPcts fr1 r m := by
  unfold rowPcts
  rw [colPct_perm fr1 fr2 hc hp, colPct_perm fr1 fr2 hc hp]

theorem precap_perm (fr1 fr2 : Frame) (cfg : DeviationConfig)
    (hc : fr2.cols = fr1.cols) (hp : fr2.rows.Perm fr1.rows) :
    (precapRows fr2 cfg).Perm (precapRows fr1 cfg) := by
  unfold precapRows
  rw [hc]
  rw [List.filterMap_congr (fun r _ =>
    evalRowCore_pct_congr cfg (detect_metrics fr1.cols) (rowPcts fr2 r)
      (rowPcts fr1 r) r (fun m _ => rowPcts_perm fr1 fr2 hc hp r m))]
  exact hp.filterMap _

theorem map_stripTier_demoteGo (start : ℕ) (l : List OutRow) (seen : ℕ) :
    (demoteGo start l seen).map stripTier = l.map stripTier := by
  induction l generalizing seen with
  | nil => rfl
  | cons o rest ih =>
    unfold demoteGo
    by_cases h : o.tier = "Tier-1"
    · rw [if_pos h]
      by_cases hs : start ≤ seen
      · rw [if_pos hs]
        simp [ih (seen + 1), stripTier]
      · rw [if_neg hs]
        simp [ih (seen + 1)]
    · rw [if_neg h]
      simp [ih seen]

theorem map_stripTier_capTier1 (k : ℤ) (l : List OutRow) :
    ((capTier1 k l).map stripTier).Perm (l.map stripTier) := by
  unfold capTier1
  by_cases hcnd : (decide (k ≠ 0) && decide (k < (countT1 l : ℤ))) = true
  · rw [if_pos hcnd]
    have h1 : ((sortRows (demoteGo (sliceStartNat k (countT1 l)) l 0)).map
        stripTier).Perm ((demoteGo (sliceStartNat k (countT1 l)) l 0).map stripTier) :=
      (pySort_perm outLe _).map stripTier
    rw [map_stripTier_demoteGo] at h1
    exact h1
  · rw [if_neg hcnd]

/-- Claim C7 (amended): permuting the batch never changes the percentile
    ranks or any account's pre-cap evaluation (score, tier and all rendered
    fields), the pre-cap report rows are a permutation, and the final report
    with the tier column removed is a permutation — so no account's score
    changes; only the positional Tier-1 cap may demote a different
    equal-scoring overflow row depending on input order. -/
theorem batch_permutation_invariance (fr1 fr2 : Frame) (cfg : DeviationConfig)
    (hc : fr2.cols = fr1.cols) (hp : fr2.rows.Perm fr1.rows) :
    (∀ r c, colPct fr2 r c = colPct fr1 r c) ∧
    (∀ r, evalRowCore cfg (detect_metrics fr1.cols) (rowPcts fr2 r) r =
        evalRowCore cfg (detect_metrics fr1.cols) (rowPcts fr1 r) r) ∧
    (precapRows fr2 cfg).Perm (precapRows fr1 cfg) ∧
    ((reportRows fr2 cfg).map stripTier).Perm
      ((reportRows fr1 cfg).map stripTier) := by
  refine ⟨fun r c => colPct_perm fr1 fr2 hc hp r c,
    fun r => evalRowCore_pct_congr cfg _ _ _ r
      (fun m _ => rowPcts_perm fr1 fr2 hc hp r m),
    precap_perm fr1 fr2 cfg hc hp, ?_⟩
  have h2 : ((reportRows fr2 cfg).map stripTier).Perm
      ((precapRows fr2 cfg).map stripTier) := by
    rw [reportRows_eq]
    exact (map_stripTier_capTier1 _ _).trans ((pySort_perm outLe _).map stripTier)
  have h1 : ((reportRows fr1 cfg).map stripTier).Perm
      ((precapRows fr1 cfg).map stripTier) := by
    rw [reportRows_eq]
    exact (map_stripTier_capTier1 _ _).trans ((pySort_perm outLe _).map stripTier)
  exact (h2.trans ((precap_perm fr1 fr2 cfg hc hp).map stripTier)).trans h1.symm

/-- Claim C7 witness: the two-account batch in both orders has
    permutation-equivalent reports once the tier column is removed. -/
theorem batch_permutation_invariance_witness :
    ((reportRows frBA cfgMax1).map stripTier).Perm
      ((reportRows frAB cfgMax1).map stripTier) :=
  (batch_permutation_invariance frAB frBA cfgMax1 rfl
    (List.Perm.swap rowA rowB [])).2.2.2

set_option maxRecDepth 10000 in
/-- Claim C7 counterexample: swapping the two equal-scoring Tier-1 accounts A
    and B flips which one the Tier-1 cap (max_tier1 = 1) demotes — account A
    is Tier-1 when listed first and Tier-2 when listed second, so a
    permutation of the batch does change an individual account's final tier. -/
theorem batch_permutation_changes_tier :
    frBA.rows.Perm frAB.rows ∧ frBA.cols = frAB.cols ∧
      (build_deviation_report frAB cfgMax1).toOption.map
        (fun l => l.map (fun o => (o.accountCode, o.tier))) =
        some [(vStr "A", "Tier-1"), (vStr "B", "Tier-2")] ∧
      (build_deviation_report frBA cfgMax1).toOption.map
        (fun l => l.map (fun o => (o.accountCode, o.tier))) =
        some [(vStr "B", "Tier-1"), (vStr "A", "Tier-2")] := by
  refine ⟨List.Perm.swap rowA rowB [], rfl, ?_, ?_⟩ <;> with_unfolding_all decide


/-! ### Lemmas for the config round-trip -/

theorem foldl_updThresholds (t0 t : Thresholds) :
    (Thresholds.asdict t).foldl updThresholds t0 = t := by
  simp only [Thresholds.asdict, List.foldl_cons, List.foldl_nil, updThresholds]

theorem foldl_updWeights (w0 w : Weights) :
    (Weights.asdict w).foldl updWeights w0 = w := by
  simp only [Weights.asdict, List.foldl_cons, List.foldl_nil, updWeights]

set_option maxHeartbeats 3200000 in
theorem foldl_updTiering (t0 t : Tiering) :
    (Tiering.asdict t).foldl updTiering t0 = t := by
  simp only [Tiering.asdict, List.foldl_cons, List.foldl_nil, updTiering]

theorem foldl_updProfile (p0 p : MetricProfile) :
    (MetricProfile.asdict p).foldl updProfile p0 = p := by
  simp only [MetricProfile.asdict, List.foldl_cons, List.foldl_nil, updProfile]

set_option maxHeartbeats 1600000 in
theorem foldl_updProfiles_defaults (p1 p2 p3 p4 : MetricProfile) :
    ([("Credit", MetricProfile.asdict p1), ("Debit", MetricProfile.asdict p2),
      ("Running_Balance", MetricProfile.asdict p3),
      ("GST", MetricProfile.asdict p4)]).foldl updProfiles default_profiles =
      [("Credit", p1), ("Debit", p2), ("Running_Balance", p3), ("GST", p4)] := by
  simp only [List.foldl_cons, List.foldl_nil, updProfiles, default_profiles,
    List.any_cons, List.any_nil, List.map_cons, List.map_nil, String.reduceEq,
    decide_True, decide_False, Bool.false_or, Bool.or_false, Bool.true_or,
    if_true, if_false, reduceIte, foldl_updProfile]

theorem map_fst_cons {α β : Type} {l : List (α × β)} {k : α} {ks : List α}
    (h : l.map Prod.fst = k :: ks) :
    ∃ v t, l = (k, v) :: t ∧ t.map Prod.fst = ks := by
  cases l with
  | nil => simp at h
  | cons e t =>
    obtain ⟨e1, e2⟩ := e
    simp only [List.map_cons, List.cons.injEq] at h
    exact ⟨e2, t, by rw [h.1], h.2⟩


set_option maxHeartbeats 3200000 in
theorem foldl_updEnabled_defaults (b1 b2 b3 b4 b5 b6 b7 b8 b9 b10 : Bool) :
    ([("distribution_change", b1), ("mean_shift", b2), ("effect_size", b3),
      ("cv", b4), ("mean_median_gap", b5), ("pearson_skew", b6),
      ("volatility_jump", b7), ("low_mean_high_variance", b8),
      ("new_activity", b9), ("sign_reversal", b10)]).foldl updEnabled
      default_enabled_checks =
      [("distribution_change", b1), ("mean_shift", b2), ("effect_size", b3),
        ("cv", b4), ("mean_median_gap", b5), ("pearson_skew", b6),
        ("volatility_jump", b7), ("low_mean_high_variance", b8),
        ("new_activity", b9), ("sign_reversal", b10)] := by
  simp only [List.foldl_cons, List.foldl_nil, updEnabled, default_enabled_checks,
    List.any_cons, List.any_nil, List.map_cons, List.map_nil, String.reduceEq,
    decide_True, decide_False, Bool.false_or, Bool.or_false, Bool.true_or,
    if_true, if_false, reduceIte]

set_option maxHeartbeats 3200000 in
theorem foldl_updBuckets_defaults (v1 v2 v3 v4 v5 v6 v7 : String) :
    ([("revenue", v1), ("cash", v2), ("timing", v3), ("clearing", v4),
      ("tax", v5), ("rounding", v6), ("general", v7)]).foldl updBuckets
      ({} : Language).bucket_finish =
      [("revenue", v1), ("cash", v2), ("timing", v3), ("clearing", v4),
        ("tax", v5), ("rounding", v6), ("general", v7)] := by
  simp only [List.foldl_cons, List.foldl_nil, updBuckets, Language.bucket_finish,
    List.any_cons, List.any_nil, List.map_cons, List.map_nil, String.reduceEq,
    decide_True, decide_False, Bool.false_or, Bool.or_false, Bool.true_or,
    if_true, if_false, reduceIte]

theorem foldl_updBuckets_append (acc ext : List (String × String))
    (h : ∀ kk ∈ ext.map Prod.fst, kk ∉ acc.map Prod.fst)
    (nd : (ext.map Prod.fst).Nodup) :
    ext.foldl updBuckets acc = acc ++ ext := by
  induction ext generalizing acc with
  | nil => simp
  | cons e es ih =>
    obtain ⟨ek, ev⟩ := e
    simp only [List.map_cons, List.nodup_cons] at nd
    simp only [List.foldl_cons]
    have h1 : updBuckets acc (ek, ev) = acc ++ [(ek, ev)] := by
      unfold updBuckets
      rw [if_neg]
      intro hany
      obtain ⟨a, ha, haa⟩ := List.any_eq_true.mp hany
      exact h ek (by simp) ((by simpa using haa : a.1 = ek) ▸
        List.mem_map_of_mem Prod.fst ha)
    rw [h1, ih (acc ++ [(ek, ev)])]
    · simp
    · intro kk hkk hmem
      rw [List.map_append, List.mem_append] at hmem
      rcases hmem with hm | hm
      · exact h kk (by simp only [List.map_cons]; exact List.mem_cons_of_mem _ hkk) hm
      · have : kk = ek := by simpa using hm
        exact nd.1 (this ▸ hkk)
    · exact nd.2

theorem foldl_updProfiles_append (acc : List (String × MetricProfile))
    (ext : List (String × MetricProfile))
    (h : ∀ kk ∈ ext.map Prod.fst, kk ∉ acc.map Prod.fst)
    (nd : (ext.map Prod.fst).Nodup) :
    (ext.map (fun e => (e.1, MetricProfile.asdict e.2))).foldl updProfiles acc =
      acc ++ ext := by
  induction ext generalizing acc with
  | nil => simp
  | cons e es ih =>
    obtain ⟨ek, ep⟩ := e
    simp only [List.map_cons, List.nodup_cons] at nd
    simp only [List.map_cons, List.foldl_cons]
    have h1 : updProfiles acc (ek, MetricProfile.asdict ep) = acc ++ [(ek, ep)] := by
      unfold updProfiles
      rw [if_neg]
      · rw [foldl_updProfile]
      · intro hany
        obtain ⟨a, ha, haa⟩ := List.any_eq_true.mp hany
        exact h ek (by simp) ((by simpa using haa : a.1 = ek) ▸
          List.mem_map_of_mem Prod.fst ha)
    rw [h1, ih (acc ++ [(ek, ep)])]
    · simp
    · intro kk hkk hmem
      rw [List.map_append, List.mem_append] at hmem
      rcases hmem with hm | hm
      · exact h kk (by simp only [List.map_cons]; exact List.mem_cons_of_mem _ hkk) hm
      · have : kk = ek := by simpa using hm
        exact nd.1 (this ▸ hkk)
    · exact nd.2


set_option maxRecDepth 10000 in
/-- Claim C3 counterexample: the claim fails as stated — a DeviationConfig
    whose profiles dict is empty does not round-trip: config_from_dict
    re-creates the four default metric profiles, so the result differs
    from the original in the profiles field. -/
theorem config_round_trip_fails :
    config_from_dict (asdictConfig cfgNoProfiles) ≠ cfgNoProfiles := by
  intro h
  have h4 : (config_from_dict (asdictConfig cfgNoProfiles)).profiles.length = 4 := by
    with_unfolding_all decide
  rw [h] at h4
  exact absurd h4 (by with_unfolding_all decide)

set_option maxHeartbeats 1600000 in
/-- Claim C3 (amended): config_from_dict (asdict c) = c for every
    DeviationConfig c whose enabled_checks dict has exactly the default key
    sequence and whose profiles and language bucket dicts start with the
    default key sequences (extra keys allowed after them, all keys distinct
    as in any Python dict); thresholds, weights, tiering (including the
    tuple-valued trigger list) and all nested profile fields always
    round-trip, unknown keys are ignored and missing sections take
    defaults.  A config missing a default enabled-check, profile or bucket
    key (or with an extra enabled-check key) does not round-trip. -/
theorem config_round_trip (c : DeviationConfig)
    (hec : c.enabled_checks.map Prod.fst = default_enabled_checks.map Prod.fst)
    (hpr : ∃ ext, c.profiles.map Prod.fst = default_profiles.map Prod.fst ++ ext)
    (hprnd : (c.profiles.map Prod.fst).Nodup)
    (hlg : ∃ ext, c.language.bucket_finish.map Prod.fst =
        ({} : Language).bucket_finish.map Prod.fst ++ ext)
    (hlgnd : (c.language.bucket_finish.map Prod.fst).Nodup) :
    config_from_dict (asdictConfig c) = c := by
  obtain ⟨extP, hpr⟩ := hpr
  obtain ⟨extL, hlg⟩ := hlg
  obtain ⟨cth, cw, cti, cpr, clg, cec⟩ := c
  obtain ⟨cbf⟩ := clg
  dsimp only at hec hpr hprnd hlg hlgnd
  rw [show default_enabled_checks.map Prod.fst = ["distribution_change", "mean_shift", "effect_size", "cv", "mean_median_gap", "pearson_skew", "volatility_jump", "low_mean_high_variance", "new_activity", "sign_reversal"] from rfl] at hec
  obtain ⟨b1, cecR1, heq1, hec1⟩ := map_fst_cons hec
  subst heq1
  obtain ⟨b2, cecR2, heq2, hec2⟩ := map_fst_cons hec1
  subst heq2
  obtain ⟨b3, cecR3, heq3, hec3⟩ := map_fst_cons hec2
  subst heq3
  obtain ⟨b4, cecR4, heq4, hec4⟩ := map_fst_cons hec3
  subst heq4
  obtain ⟨b5, cecR5, heq5, hec5⟩ := map_fst_cons hec4
  subst heq5
  obtain ⟨b6, cecR6, heq6, hec6⟩ := map_fst_cons hec5
  subst heq6
  obtain ⟨b7, cecR7, heq7, hec7⟩ := map_fst_cons hec6
  subst heq7
  obtain ⟨b8, cecR8, heq8, hec8⟩ := map_fst_cons hec7
  subst heq8
  obtain ⟨b9, cecR9, heq9, hec9⟩ := map_fst_cons hec8
  subst heq9
  obtain ⟨b10, cecR10, heq10, hec10⟩ := map_fst_cons hec9
  subst heq10
  have hceL : cecR10 = [] := by
    cases cecR10 with
    | nil => rfl
    | cons a t => simp at hec10
  subst hceL
  rw [show default_profiles.map Prod.fst = ["Credit", "Debit", "Running_Balance", "GST"] from rfl,
    List.cons_append, List.cons_append, List.cons_append, List.cons_append,
    List.nil_append] at hpr
  obtain ⟨p1, cprR1, hpq1, hpr1⟩ := map_fst_cons hpr
  subst hpq1
  obtain ⟨p2, cprR2, hpq2, hpr2⟩ := map_fst_cons hpr1
  subst hpq2
  obtain ⟨p3, cprR3, hpq3, hpr3⟩ := map_fst_cons hpr2
  subst hpq3
  obtain ⟨p4, cprR4, hpq4, hpr4⟩ := map_fst_cons hpr3
  subst hpq4
  rw [show ({} : Language).bucket_finish.map Prod.fst = ["revenue", "cash", "timing", "clearing", "tax", "rounding", "general"] from rfl,
    List.cons_append, List.cons_append, List.cons_append, List.cons_append,
    List.cons_append, List.cons_append, List.cons_append,
    List.nil_append] at hlg
  obtain ⟨v1, cbfR1, hlq1, hlg1⟩ := map_fst_cons hlg
  subst hlq1
  obtain ⟨v2, cbfR2, hlq2, hlg2⟩ := map_fst_cons hlg1
  subst hlq2
  obtain ⟨v3, cbfR3, hlq3, hlg3⟩ := map_fst_cons hlg2
  subst hlq3
  obtain ⟨v4, cbfR4, hlq4, hlg4⟩ := map_fst_cons hlg3
  subst hlq4
  obtain ⟨v5, cbfR5, hlq5, hlg5⟩ := map_fst_cons hlg4
  subst hlq5
  obtain ⟨v6, cbfR6, hlq6, hlg6⟩ := map_fst_cons hlg5
  subst hlq6
  obtain ⟨v7, cbfR7, hlq7, hlg7⟩ := map_fst_cons hlg6
  subst hlq7
  simp only [List.map_cons, List.nodup_cons, List.mem_cons] at hprnd hlgnd
  simp only [config_from_dict, asdictConfig, DeviationConfig.mk.injEq]
  refine ⟨foldl_updThresholds _ _, foldl_updWeights _ _, foldl_updTiering _ _, ?_, ?_, ?_⟩
  · show ((([("Credit", p1), ("Debit", p2), ("Running_Balance", p3),
        ("GST", p4)] ++ cprR4).map
        (fun e => (e.1, MetricProfile.asdict e.2))).foldl updProfiles
        default_profiles) = _
    rw [List.map_append, List.foldl_append]
    rw [show ([("Credit", p1), ("Debit", p2), ("Running_Balance", p3),
        ("GST", p4)].map (fun e => (e.1, MetricProfile.asdict e.2))) =
        [("Credit", MetricProfile.asdict p1), ("Debit", MetricProfile.asdict p2),
          ("Running_Balance", MetricProfile.asdict p3),
          ("GST", MetricProfile.asdict p4)] from rfl,
      foldl_updProfiles_defaults]
    rw [foldl_updProfiles_append]
    · rfl
    · intro kk hkk hmem
      have hmem2 : kk ∈ ["Credit", "Debit", "Running_Balance", "GST"] := by
        simpa using hmem
      simp only [List.mem_cons, List.not_mem_nil, or_false] at hmem2
      rcases hmem2 with rfl | rfl | rfl | rfl
      · exact hprnd.1 (Or.inr (Or.inr (Or.inr hkk)))
      · exact hprnd.2.1 (Or.inr (Or.inr hkk))
      · exact hprnd.2.2.1 (Or.inr hkk)
      · exact hprnd.2.2.2.1 hkk
    · exact hprnd.2.2.2.2
  · show Language.mk ((([("revenue", v1), ("cash", v2), ("timing", v3),
        ("clearing", v4), ("tax", v5), ("rounding", v6), ("general", v7)] ++
        cbfR7).foldl updBuckets ({} : Language).bucket_finish)) = _
    rw [List.foldl_append, foldl_updBuckets_defaults]
    rw [foldl_updBuckets_append]
    · rfl
    · intro kk hkk hmem
      have hmem2 : kk ∈ ["revenue", "cash", "timing", "clearing", "tax",
          "rounding", "general"] := by
        simpa using hmem
      simp only [List.mem_cons, List.not_mem_nil, or_false] at hmem2
      rcases hmem2 with rfl | rfl | rfl | rfl | rfl | rfl | rfl
      · exact hlgnd.1 (Or.inr (Or.inr (Or.inr (Or.inr (Or.inr (Or.inr hkk))))))
      · exact hlgnd.2.1 (Or.inr (Or.inr (Or.inr (Or.inr (Or.inr hkk)))))
      · exact hlgnd.2.2.1 (Or.inr (Or.inr (Or.inr (Or.inr hkk))))
      · exact hlgnd.2.2.2.1 (Or.inr (Or.inr (Or.inr hkk)))
      · exact hlgnd.2.2.2.2.1 (Or.inr (Or.inr hkk))
      · exact hlgnd.2.2.2.2.2.1 (Or.inr hkk)
      · exact hlgnd.2.2.2.2.2.2.1 hkk
    · exact hlgnd.2.2.2.2.2.2.2
  · exact foldl_updEnabled_defaults b1 b2 b3 b4 b5 b6 b7 b8 b9 b10

/-- Claim C3 witness: the default configuration round-trips. -/
theorem config_round_trip_witness :
    config_from_dict (asdictConfig ({} : DeviationConfig)) =
      ({} : DeviationConfig) :=
  config_round_trip {} rfl ⟨[], by simp⟩ (by with_unfolding_all decide)
    ⟨[], by simp⟩ (by with_unfolding_all decide)
end GLA
